import Mathlib

/-!
Shallow embedding of the Skill-Gap-AI-Identifier core (gap analysis,
adaptive quiz engine, quiz scorer, learning roadmap) and verification of
its specified properties.

Numeric values (skill levels, requirements, scores) are modelled exactly
as rationals.  Python's `round(x, 1)` is modelled by `round1` below,
rounding to one decimal place (ties round half-up; no property proved
here depends on the tie-breaking direction, and no tie arises in any
concrete input used).  Python dictionaries are modelled as
insertion-ordered association lists, with `dictGet` playing the role of
`dict.get(key, default)`.
-/

set_option allowUnsafeReducibility true

attribute [semireducible] Rat.add Rat.mul Rat.sub Rat.inv Rat.ofScientific

-- ═════════════════════════════════════════════
--  Definitions (embedded from the source)
-- ═════════════════════════════════════════════

/-- Python `round(x, 1)`: round to one decimal place.  Ties (exact
multiples of 0.05) round up here while CPython rounds the underlying
binary float to even; no property below depends on the tie direction and
no concrete input used hits a tie. -/
def round1 (q : ℚ) : ℚ := ((Rat.floor (q * 10 + 1/2) : ℤ) : ℚ) / 10

/-- Python built-in `max` on two numbers, written so that the kernel can
evaluate it on rational literals (`max(a, b)` returns `a` on ties, which
is indistinguishable on numbers). -/
def pyMax (a b : ℚ) : ℚ := if b ≤ a then a else b

/-- Python built-in `min` on two numbers, kernel-evaluable. -/
def pyMin (a b : ℚ) : ℚ := if a ≤ b then a else b

/-- A Python `dict` keyed by skill name with numeric values:
insertion-ordered association list. -/
abbrev SMap := List (String × ℚ)

/-- `m.get(k, d)` on a Python dict. -/
def dictGet (m : SMap) (k : String) (d : ℚ) : ℚ := ((m.lookup k).getD d)

/-- `m[k] = v` on a Python dict: replace the binding in place if the key
is present, else append it at the end (insertion order). -/
def dictSet (m : SMap) (k : String) (v : ℚ) : SMap :=
  match m with
  | [] => [(k, v)]
  | (k', v') :: rest =>
    if k' == k then (k', v) :: rest else (k', v') :: dictSet rest k v

/-- One entry of the mapping returned by `calculate_skill_gaps`
(gap_analysis.py, the per-skill dict built in the loop body). -/
structure GapRecord where
  current : ℚ
  required : ℚ
  gap : ℚ
  priority_score : ℚ
  status : String
deriving Repr, DecidableEq

/-- Render a one-decimal rational the way Python prints the float
(used only for the `status` text, e.g. `"Gap: 1.5"`). -/
def decimal1Repr (q : ℚ) : String :=
  let n : ℤ := Rat.floor (q * 10 + 1/2)
  toString (n / 10) ++ "." ++ toString (n % 10)

/-- Body of the `for skill, required in role_requirements.items()` loop
of `calculate_skill_gaps` (gap_analysis.py lines 8-21). -/
def gapRecord (user_scores : SMap) (skill : String) (required : ℚ) : GapRecord :=
  let current := round1 (dictGet user_scores skill 0)
  let gap := round1 (pyMax (required - current) 0)
  let priority_score := if required > 0 then gap * (required / 10) else 0
  { current := current
    required := round1 required
    gap := gap
    priority_score := round1 priority_score
    status := if gap == 0 then "Strong ✓" else "Gap: " ++ decimal1Repr gap }

/-- The `gaps` dict of `calculate_skill_gaps` before sorting: one record
per requirement entry, in requirement-map iteration order. -/
def gapList (user_scores : SMap) (role_requirements : SMap) :
    List (String × GapRecord) :=
  role_requirements.map (fun p => (p.1, gapRecord user_scores p.1 p.2))

/-- Stable insertion of an entry into a list sorted by descending
`priority_score`: the new entry goes after all entries whose key is ≥
its own, so equal keys keep their original relative order. -/
def insertByPriorityDesc (x : String × GapRecord) :
    List (String × GapRecord) → List (String × GapRecord)
  | [] => [x]
  | y :: l =>
    if x.2.priority_score ≤ y.2.priority_score then y :: insertByPriorityDesc x l
    else x :: y :: l

/-- Python's stable `sorted(gaps.items(), key=priority_score, reverse=True)`
(gap_analysis.py line 24), modelled as a stable insertion sort — any
stable sort realises the same list. -/
def sortByPriorityDesc (l : List (String × GapRecord)) :
    List (String × GapRecord) :=
  l.foldl (fun acc x => insertByPriorityDesc x acc) []

/-- `calculate_skill_gaps` (gap_analysis.py lines 4-25). -/
def calculate_skill_gaps (user_scores : SMap) (role_requirements : SMap) :
    List (String × GapRecord) :=
  sortByPriorityDesc (gapList user_scores role_requirements)

/-- `calculate_readiness_score` (gap_analysis.py lines 39-49). -/
def calculate_readiness_score (user_scores : SMap) (role_requirements : SMap) : ℚ :=
  if role_requirements = [] then 0
  else
    let total_required := (role_requirements.map Prod.snd).sum
    let total_current :=
      (role_requirements.map (fun p => pyMin (dictGet user_scores p.1 0) p.2)).sum
    let readiness := if total_required > 0 then total_current / total_required * 100 else 0
    pyMin 100 (round1 readiness)

/-- The four difficulty tiers of the question bank. -/
inductive Difficulty where
  | beginner
  | intermediate
  | advanced
  | expert
deriving DecidableEq, Repr, Inhabited

/-- `DIFFICULTY_ORDER` (quiz_engine.py line 407): lowest → highest. -/
def DIFFICULTY_ORDER : List Difficulty :=
  [.beginner, .intermediate, .advanced, .expert]

/-- `DIFFICULTY_ORDER.index(d)`. -/
def difficultyIndex : Difficulty → Nat
  | .beginner => 0
  | .intermediate => 1
  | .advanced => 2
  | .expert => 3

/-- `DIFFICULTY_ORDER[idx]` for an index known to be ≤ 3 (every index the
code forms is clamped into range). -/
def difficultyOfIndex : Nat → Difficulty
  | 0 => .beginner
  | 1 => .intermediate
  | 2 => .advanced
  | _ => .expert

/-- One entry of the question bank:
`{"q": ..., "opts": [...], "ans": n}`. -/
structure Question where
  q : String
  opts : List String
  ans : Nat
deriving Repr, DecidableEq, Inhabited

/-- The per-skill inner dict of the bank, difficulty → question list;
`d.get(difficulty, [])`. -/
def tierGet : List (Difficulty × List Question) → Difficulty → List Question
  | [], _ => []
  | (d', qs) :: rest, d => if d' = d then qs else tierGet rest d

def QUESTION_BANK : List (String × List (Difficulty × List Question)) := [
  ("Python", [
   (Difficulty.beginner, [
    ⟨"What is the output of print(type([]))?",
     ["<class \x27list\x27>", "<class \x27tuple\x27>", "<class \x27dict\x27>", "<class \x27set\x27>"], 0⟩,
    ⟨"Which keyword defines a function in Python?",
     ["func", "define", "def", "function"], 2⟩,
    ⟨"What does len(\x27Hello\x27) return?",
     ["4", "5", "6", "Error"], 1⟩
   ]),
   (Difficulty.intermediate, [
    ⟨"What is a list comprehension used for?",
     ["Sorting a list", "Creating a list from an iterable in one line", "Compressing a list into bytes", "Deleting list elements"], 1⟩,
    ⟨"What does the \x27yield\x27 keyword do?",
     ["Stops the function permanently", "Returns a value and pauses the generator", "Raises an exception", "Creates a new thread"], 1⟩,
    ⟨"Tuples differ from lists because tuples are…",
     ["Mutable", "Immutable", "Unordered", "Only for numbers"], 1⟩
   ]),
   (Difficulty.advanced, [
    ⟨"What is a decorator in Python?",
     ["A CSS styling tool", "A function that wraps another function to extend its behavior", "A type of variable", "A loop construct"], 1⟩,
    ⟨"What is the GIL?",
     ["Global Import Library", "General Interface Layer", "Global Interpreter Lock — limits true multi-threading", "Graphical Interaction Loop"], 2⟩
   ]),
   (Difficulty.expert, [
    ⟨"What is a metaclass in Python?",
     ["A class that creates classes", "A subclass of object", "A type of decorator", "A module system"], 0⟩
   ])
  ]),
  ("JavaScript", [
   (Difficulty.beginner, [
    ⟨"Which company developed JavaScript?",
     ["Microsoft", "Netscape", "Google", "Apple"], 1⟩,
    ⟨"How do you declare a variable that cannot be reassigned?",
     ["var x", "let x", "const x", "static x"], 2⟩
   ]),
   (Difficulty.intermediate, [
    ⟨"What does \x27===\x27 check?",
     ["Value only", "Type only", "Value and type", "Reference"], 2⟩,
    ⟨"What is a closure?",
     ["A function with access to its outer scope variables", "A terminated process", "A CSS animation", "A data type"], 0⟩
   ]),
   (Difficulty.advanced, [
    ⟨"What is the event loop in JavaScript?",
     ["A for-loop variant", "Mechanism that handles async callbacks on a single thread", "A DOM event handler", "A CSS animation loop"], 1⟩
   ]),
   (Difficulty.expert, [
    ⟨"What is the Temporal Dead Zone (TDZ)?",
     ["Region where let/const is declared but not yet initialised", "A memory leak area", "A deprecated API zone", "A testing timeout"], 0⟩
   ])
  ]),
  ("SQL", [
   (Difficulty.beginner, [
    ⟨"Which SQL clause filters rows?",
     ["SELECT", "WHERE", "ORDER BY", "GROUP BY"], 1⟩,
    ⟨"What does SELECT DISTINCT do?",
     ["Selects all rows", "Removes duplicate rows", "Sorts results", "Limits output"], 1⟩
   ]),
   (Difficulty.intermediate, [
    ⟨"What is the difference between INNER JOIN and LEFT JOIN?",
     ["No difference", "LEFT JOIN includes unmatched left-table rows", "INNER JOIN includes NULLs", "LEFT JOIN is faster"], 1⟩,
    ⟨"What does GROUP BY do?",
     ["Sorts data", "Groups rows sharing a value for aggregate functions", "Filters groups", "Joins tables"], 1⟩
   ]),
   (Difficulty.advanced, [
    ⟨"What is a window function?",
     ["Performs calculation across a set of rows related to the current row", "Opens a new database window", "A GUI element", "A type of index"], 0⟩
   ]),
   (Difficulty.expert, [
    ⟨"What is a CTE (Common Table Expression)?",
     ["A permanent table", "A temporary named result set scoped to a single query", "A stored procedure", "A view"], 1⟩
   ])
  ]),
  ("Machine Learning", [
   (Difficulty.beginner, [
    ⟨"What is supervised learning?",
     ["Learning without labels", "Learning with labelled data", "Reinforcement learning", "Unsupervised clustering"], 1⟩,
    ⟨"What is overfitting?",
     ["Model learns noise and performs poorly on new data", "Model is too simple", "Training takes too long", "Data is missing"], 0⟩
   ]),
   (Difficulty.intermediate, [
    ⟨"What is cross-validation?",
     ["Training on all data", "Splitting data into folds to validate model performance", "Testing in production", "Data augmentation"], 1⟩,
    ⟨"What does regularisation do?",
     ["Speeds training", "Prevents overfitting by penalising large coefficients", "Increases model complexity", "Normalises data"], 1⟩
   ]),
   (Difficulty.advanced, [
    ⟨"What is gradient descent?",
     ["A data structure", "Iterative optimisation to minimise a loss function", "A neural network layer", "A feature selection method"], 1⟩
   ]),
   (Difficulty.expert, [
    ⟨"What is the bias-variance tradeoff?",
     ["Balancing model complexity: low bias ↔ high variance", "Balancing dataset size", "Choosing learning rate", "Selecting features"], 0⟩
   ])
  ]),
  ("Statistics", [
   (Difficulty.beginner, [
    ⟨"What is the mean of [2, 4, 6]?",
     ["2", "4", "6", "12"], 1⟩,
    ⟨"What does standard deviation measure?",
     ["Central tendency", "Spread of data", "Skewness", "Kurtosis"], 1⟩
   ]),
   (Difficulty.intermediate, [
    ⟨"What is a p-value?",
     ["Probability of observing results at least as extreme, assuming H0 is true", "The population mean", "A data point", "A coefficient"], 0⟩
   ]),
   (Difficulty.advanced, [
    ⟨"What is Bayes\x27 theorem used for?",
     ["Calculating posterior probability from prior and likelihood", "Sorting data", "Feature scaling", "Dimensionality reduction"], 0⟩
   ]),
   (Difficulty.expert, [
    ⟨"When is a bootstrap method preferred over parametric tests?",
     ["When distribution assumptions are hard to verify", "When data is normally distributed", "When sample size is large", "Always"], 0⟩
   ])
  ]),
  ("React", [
   (Difficulty.beginner, [
    ⟨"What is JSX?",
     ["A database", "JavaScript XML — syntax extension for React", "A CSS framework", "A REST API"], 1⟩
   ]),
   (Difficulty.intermediate, [
    ⟨"What does useState return?",
     ["A boolean", "An array with [state, setter]", "A promise", "A DOM node"], 1⟩
   ]),
   (Difficulty.advanced, [
    ⟨"What is React.memo used for?",
     ["State management", "Memoising a component to prevent unnecessary re-renders", "Routing", "Server-side rendering"], 1⟩
   ]),
   (Difficulty.expert, [
    ⟨"What problem does React Server Components solve?",
     ["Reduces client bundle size by rendering on the server", "Replaces Redux", "Improves CSS", "Handles authentication"], 0⟩
   ])
  ]),
  ("Deep Learning", [
   (Difficulty.beginner, [
    ⟨"What is a neural network?",
     ["A computer network", "A model inspired by the human brain with layers of nodes", "A graph database", "A sorting algorithm"], 1⟩
   ]),
   (Difficulty.intermediate, [
    ⟨"What is backpropagation?",
     ["Forward data flow", "Algorithm to compute gradients for weight updates", "A data augmentation technique", "A regularisation method"], 1⟩
   ]),
   (Difficulty.advanced, [
    ⟨"What problem do LSTMs solve that vanilla RNNs struggle with?",
     ["Over-parameterisation", "Long-range dependency / vanishing gradient", "Data preprocessing", "Batch normalisation"], 1⟩
   ]),
   (Difficulty.expert, [
    ⟨"What is the key innovation of the Transformer architecture?",
     ["Self-attention mechanism replacing recurrence", "Convolutional layers", "Skip connections only", "Pooling layers"], 0⟩
   ])
  ]),
  ("Docker", [
   (Difficulty.beginner, [
    ⟨"What is a Docker container?",
     ["A virtual machine", "A lightweight, isolated runtime environment", "A programming language", "A database"], 1⟩
   ]),
   (Difficulty.intermediate, [
    ⟨"What is a Dockerfile?",
     ["A running container", "A script with instructions to build a Docker image", "A YAML config file", "A network bridge"], 1⟩
   ]),
   (Difficulty.advanced, [
    ⟨"What is Docker Compose used for?",
     ["Writing Dockerfiles", "Defining and running multi-container applications", "Container security scanning", "Image compression"], 1⟩
   ]),
   (Difficulty.expert, [
    ⟨"What is a multi-stage build?",
     ["Using multiple FROM statements to reduce final image size", "Running containers in stages", "A CI pipeline", "A swarm mode feature"], 0⟩
   ])
  ]),
  ("Git", [
   (Difficulty.beginner, [
    ⟨"What does \x27git commit\x27 do?",
     ["Uploads code to GitHub", "Saves staged changes to the local repository", "Deletes a branch", "Merges branches"], 1⟩
   ]),
   (Difficulty.intermediate, [
    ⟨"What is \x27git rebase\x27 used for?",
     ["Deleting commits", "Re-applying commits on top of another base tip", "Creating a tag", "Initialising a repo"], 1⟩
   ]),
   (Difficulty.advanced, [
    ⟨"What is a Git hook?",
     ["A branch naming convention", "A script triggered by Git events like commit or push", "A merge strategy", "A remote alias"], 1⟩
   ])
  ]),
  ("Testing", [
   (Difficulty.beginner, [
    ⟨"What is a unit test?",
     ["Testing the full app", "Testing a single function or component in isolation", "Performance testing", "Security testing"], 1⟩
   ]),
   (Difficulty.intermediate, [
    ⟨"What is mocking?",
     ["Removing tests", "Replacing real objects with simulated ones for testing", "Writing documentation", "Code formatting"], 1⟩
   ]),
   (Difficulty.advanced, [
    ⟨"What is TDD (Test-Driven Development)?",
     ["Writing tests after code", "Writing tests before code, then making them pass", "A debugging tool", "A deployment strategy"], 1⟩
   ])
  ]),
  ("CSS", [
   (Difficulty.beginner, [
    ⟨"What does CSS stand for?",
     ["Cascading Style Sheets", "Computer Style Sheets", "Creative Style Syntax", "Coded Style Sheets"], 0⟩
   ]),
   (Difficulty.intermediate, [
    ⟨"What is Flexbox?",
     ["A JavaScript library", "A CSS layout model for arranging items in one dimension", "A grid framework", "A font system"], 1⟩
   ]),
   (Difficulty.advanced, [
    ⟨"What is CSS specificity?",
     ["How fast CSS loads", "Rules determining which styles override others based on selectors", "A responsiveness metric", "A colour model"], 1⟩
   ])
  ]),
  ("APIs", [
   (Difficulty.beginner, [
    ⟨"What does REST stand for?",
     ["Representational State Transfer", "Remote Execution Standard Technology", "Real-time Event Streaming", "Resource Exchange Protocol"], 0⟩
   ]),
   (Difficulty.intermediate, [
    ⟨"What HTTP method is used to update a resource?",
     ["GET", "POST", "PUT", "DELETE"], 2⟩
   ]),
   (Difficulty.advanced, [
    ⟨"What is the key advantage of GraphQL over REST?",
     ["Faster network", "Clients request exactly the data they need", "Built-in authentication", "No server needed"], 1⟩
   ])
  ]),
  ("System Design", [
   (Difficulty.beginner, [
    ⟨"What is horizontal scaling?",
     ["Adding more powerful hardware", "Adding more machines to distribute load", "Increasing memory", "Using a CDN"], 1⟩
   ]),
   (Difficulty.intermediate, [
    ⟨"What is a load balancer?",
     ["A database index", "Distributes incoming traffic across servers", "A caching layer", "A message queue"], 1⟩
   ]),
   (Difficulty.advanced, [
    ⟨"What is the CAP theorem?",
     ["A distributed system can guarantee at most 2 of: Consistency, Availability, Partition tolerance", "A sorting algorithm", "A network protocol", "A testing principle"], 0⟩
   ])
  ]),
  ("NLP", [
   (Difficulty.beginner, [
    ⟨"What does NLP stand for?",
     ["Natural Language Processing", "Neural Layer Protocol", "Non-Linear Programming", "New Language Parser"], 0⟩
   ]),
   (Difficulty.intermediate, [
    ⟨"What is tokenisation?",
     ["Encrypting data", "Splitting text into smaller units (tokens)", "Generating random text", "Translating languages"], 1⟩
   ]),
   (Difficulty.advanced, [
    ⟨"What is attention in NLP models?",
     ["A loss function", "Mechanism that lets the model focus on relevant parts of input", "A data augmentation step", "A regularisation technique"], 1⟩
   ])
  ]),
  ("Computer Vision", [
   (Difficulty.beginner, [
    ⟨"What is a convolution in CNNs?",
     ["A fully connected layer", "Applying a filter/kernel across an image to detect features", "A pooling operation", "An activation function"], 1⟩
   ]),
   (Difficulty.intermediate, [
    ⟨"What is transfer learning?",
     ["Training from scratch", "Reusing a pre-trained model for a new task", "Data augmentation", "Feature scaling"], 1⟩
   ]),
   (Difficulty.advanced, [
    ⟨"What is an anchor box in object detection?",
     ["A bounding box template used to predict object locations", "A type of activation function", "A loss function", "A data augmentation method"], 0⟩
   ])
  ]),
  ("Data Visualization", [
   (Difficulty.beginner, [
    ⟨"When should you use a bar chart?",
     ["Comparing categories", "Showing trends over time", "Showing proportions", "Showing correlations"], 0⟩
   ]),
   (Difficulty.intermediate, [
    ⟨"What is a heatmap best used for?",
     ["Showing geographic data", "Showing magnitude as colour in a matrix", "Animating bar charts", "3D rendering"], 1⟩
   ]),
   (Difficulty.advanced, [
    ⟨"What principle prevents chartjunk?",
     ["Maximise data-ink ratio (Tufte)", "Use 3D effects", "Add grid lines everywhere", "Use bright colours"], 0⟩
   ])
  ]),
  ("Cloud Computing", [
   (Difficulty.beginner, [
    ⟨"What does IaaS stand for?",
     ["Infrastructure as a Service", "Internet as a Service", "Integration as a Service", "Intelligence as a Service"], 0⟩
   ]),
   (Difficulty.intermediate, [
    ⟨"What is serverless computing?",
     ["No servers exist", "Cloud provider manages servers; you deploy functions", "On-premise only", "A containerisation method"], 1⟩
   ]),
   (Difficulty.advanced, [
    ⟨"What is a VPC?",
     ["Virtual Private Cloud — isolated network within the cloud", "Virtual Processing Core", "Variable Pricing Calculator", "Version-controlled Pipeline Configuration"], 0⟩
   ])
  ]),
  ("DevOps", [
   (Difficulty.beginner, [
    ⟨"What does CI/CD stand for?",
     ["Continuous Integration / Continuous Delivery", "Code Inspection / Code Deployment", "Container Integration / Container Distribution", "Cloud Infrastructure / Cloud Deployment"], 0⟩
   ]),
   (Difficulty.intermediate, [
    ⟨"What is Infrastructure as Code (IaC)?",
     ["Manually configuring servers", "Managing infrastructure through code and version control", "Writing application code", "A monitoring tool"], 1⟩
   ]),
   (Difficulty.advanced, [
    ⟨"What is a canary deployment?",
     ["Rolling out changes to a small subset of users before full release", "Deploying to all users at once", "A rollback strategy", "A load testing method"], 0⟩
   ])
  ])
]

/-- A question bank of the same shape as `QUESTION_BANK` (the source
reads the module-global dict; functions below take it as a parameter and
`generate_adaptive_quiz` instantiates it with `QUESTION_BANK`). -/
abbrev Bank := List (String × List (Difficulty × List Question))

/-- `bank[skill].get(difficulty, [])` with a missing skill giving `[]`. -/
def getPool (bank : Bank) (skill : String) (d : Difficulty) : List Question :=
  tierGet ((bank.lookup skill).getD []) d

/-- `_difficulty_for_level` (quiz_engine.py lines 410-417). -/
def difficulty_for_level (level : ℚ) : Difficulty :=
  if level ≤ 3 then .beginner
  else if level ≤ 5 then .intermediate
  else if level ≤ 7 then .advanced
  else .expert

/-- `_next_difficulty` (quiz_engine.py lines 420-426):
step up (saturating at expert) on correct, down (saturating at beginner)
otherwise. -/
def next_difficulty (current : Difficulty) (correct : Bool) : Difficulty :=
  let idx := difficultyIndex current
  let idx := if correct then min (idx + 1) (DIFFICULTY_ORDER.length - 1) else idx - 1
  difficultyOfIndex idx

/-- An element of the list returned by `generate_adaptive_quiz`.  In
the source `display_order` is only added by the final enumeration pass;
the record type being total, items carry a placeholder `0` until that
pass overwrites it. -/
structure QuizItem where
  id : Nat
  skill : String
  difficulty : Difficulty
  question : String
  options : List String
  correct_index : Nat
  display_order : Nat
deriving Repr, DecidableEq, Inhabited

/-- The `for _ in range(questions_per_skill)` loop of
`generate_adaptive_quiz` (quiz_engine.py lines 453-478) for one skill:
resolve the pool (falling back over `DIFFICULTY_ORDER` when empty, the
`for d in DIFFICULTY_ORDER … break` scan), skip the draw when every pool
is empty, otherwise draw `random.choice(pool)` — modelled by the injected
`rng` stream indexed by the running question id, exactly one `rng` use
per emitted item — and adapt the difficulty upward for the next draw.
Returns the items drawn for this skill and the next fresh id. -/
def drawForSkill (bank : Bank) (rng : Nat → Nat) (skill : String) :
    Nat → Difficulty → Nat → List QuizItem × Nat
  | 0, _, qid => ([], qid)
  | n + 1, difficulty, qid =>
    let pool0 := getPool bank skill difficulty
    let resolved :=
      if pool0.isEmpty then
        match DIFFICULTY_ORDER.find? (fun d => !(getPool bank skill d).isEmpty) with
        | some d => (getPool bank skill d, d)
        | none => (pool0, difficulty)
      else (pool0, difficulty)
    let pool := resolved.1
    let difficulty := resolved.2
    if pool.isEmpty then
      drawForSkill bank rng skill n difficulty qid
    else
      let q := pool.getD (rng qid % pool.length) default
      let item : QuizItem :=
        { id := qid, skill := skill, difficulty := difficulty,
          question := q.q, options := q.opts, correct_index := q.ans,
          display_order := 0 }
      let rest := drawForSkill bank rng skill n (next_difficulty difficulty true) (qid + 1)
      (item :: rest.1, rest.2)

/-- The `for skill in role_skills` loop of `generate_adaptive_quiz`
(quiz_engine.py lines 448-478): skills absent from the bank are skipped
(`continue`), otherwise the starting difficulty comes from the user's
level (default 5) and `questions_per_skill` draws are made. -/
def genSkills (bank : Bank) (rng : Nat → Nat) (user_levels : SMap)
    (questions_per_skill : Nat) : List String → Nat → List QuizItem × Nat
  | [], qid => ([], qid)
  | skill :: rest, qid =>
    if (bank.lookup skill).isNone then
      genSkills bank rng user_levels questions_per_skill rest qid
    else
      let difficulty := difficulty_for_level (dictGet user_levels skill 5)
      let drawn := drawForSkill bank rng skill questions_per_skill difficulty qid
      let more := genSkills bank rng user_levels questions_per_skill rest drawn.2
      (drawn.1 ++ more.1, more.2)

/-- `generate_adaptive_quiz` (quiz_engine.py lines 434-482) over an
explicit bank: generate all items (no shuffle), then assign
`display_order` by final enumeration order. -/
def generateAdaptiveQuizWith (bank : Bank) (role_skills : List String)
    (user_levels : SMap) (questions_per_skill : Nat) (rng : Nat → Nat) :
    List QuizItem :=
  let quiz := (genSkills bank rng user_levels questions_per_skill role_skills 0).1
  quiz.enum.map (fun p => { p.2 with display_order := p.1 })

/-- `generate_adaptive_quiz` on the module-global `QUESTION_BANK`. -/
def generate_adaptive_quiz (role_skills : List String) (user_levels : SMap)
    (questions_per_skill : Nat) (rng : Nat → Nat) : List QuizItem :=
  generateAdaptiveQuizWith QUESTION_BANK role_skills user_levels
    questions_per_skill rng

/-- The per-skill accumulator dict value of `score_quiz` before the
score pass: `{"correct": …, "total": …, "max_difficulty": …}`. -/
structure SkillTally where
  correct : Nat
  total : Nat
  max_difficulty : Difficulty
deriving Repr, DecidableEq, Inhabited

/-- The final per-skill result of `score_quiz`, with the derived
`score_0_10`. -/
structure SkillScore where
  correct : Nat
  total : Nat
  max_difficulty : Difficulty
  score_0_10 : ℚ
deriving Repr, DecidableEq, Inhabited

/-- Body of the first loop of `score_quiz` (quiz_engine.py lines
492-502) acting on one skill's tally: count the item, and on a correct
answer count it and raise `max_difficulty` when the item's tier index is
≥ the recorded one. -/
def tallyItem (answers : List (Nat × Nat)) (r : SkillTally) (q : QuizItem) :
    SkillTally :=
  let r := { r with total := r.total + 1 }
  if answers.lookup q.id = some q.correct_index then
    let r := { r with correct := r.correct + 1 }
    if difficultyIndex r.max_difficulty ≤ difficultyIndex q.difficulty then
      { r with max_difficulty := q.difficulty }
    else r
  else r

/-- In-place update of the first binding of `k` in an association list
(Python dict item assignment for a present key). -/
def updateAssoc (l : List (String × SkillTally)) (k : String)
    (f : SkillTally → SkillTally) : List (String × SkillTally) :=
  match l with
  | [] => []
  | (k', v) :: rest =>
    if k' == k then (k', f v) :: rest else (k', v) :: updateAssoc rest k f

/-- One iteration of `for q in quiz` in `score_quiz`: initialize the
skill's tally on first sight (insertion at the end, Python dict
insertion order), then apply `tallyItem`. -/
def tallyStep (answers : List (Nat × Nat)) (acc : List (String × SkillTally))
    (q : QuizItem) : List (String × SkillTally) :=
  if (acc.lookup q.skill).isSome then
    updateAssoc acc q.skill (fun r => tallyItem answers r q)
  else
    acc ++ [(q.skill, tallyItem answers ⟨0, 0, .beginner⟩ q)]

/-- Body of the second loop of `score_quiz` (quiz_engine.py lines
504-508): derive `score_0_10` from a skill's tally
(`ratio = correct/total if total else 0`;
`min(10, round(2 + diff_idx * 2.5 + ratio * 2, 1))`). -/
def scoreOfTally (res : SkillTally) : SkillScore :=
  let frac : ℚ := if res.total ≠ 0 then (res.correct : ℚ) / (res.total : ℚ) else 0
  let diff_idx := difficultyIndex res.max_difficulty
  { correct := res.correct, total := res.total,
    max_difficulty := res.max_difficulty,
    score_0_10 := pyMin 10 (round1 (2 + (diff_idx : ℚ) * 2.5 + frac * 2)) }

/-- `score_quiz` (quiz_engine.py lines 485-511). -/
def score_quiz (quiz : List QuizItem) (answers : List (Nat × Nat)) :
    List (String × SkillScore) :=
  let skill_results := quiz.foldl (tallyStep answers) []
  skill_results.map (fun p => (p.1, scoreOfTally p.2))

/-- The per-skill user-level update performed on quiz submission
(app.py lines 375-377):
`prev = user_scores.get(skill, 0)`;
`new = round((prev + score)/2, 1) if prev else score`;
`user_scores[skill] = new`.  Note Python truthiness: a stored level of
`0` takes the `else` branch exactly like a missing level. -/
def applySkillScore (user_scores : SMap) (skill : String) (score_0_10 : ℚ) :
    SMap :=
  let prev := dictGet user_scores skill 0
  let new := if prev ≠ 0 then round1 ((prev + score_0_10) / 2) else score_0_10
  dictSet user_scores skill new

/-- The `for skill, res in results.items()` loop of the quiz-submit
handler (app.py lines 371-377), restricted to its user-score updates. -/
def applyQuizResults (user_scores : SMap)
    (results : List (String × SkillScore)) : SMap :=
  results.foldl (fun u p => applySkillScore u p.1 p.2.score_0_10) user_scores

/-- `get_level_description` (learning_roadmap.py lines 5-15). -/
def get_level_description (level : ℚ) : String :=
  if level ≤ 2 then "Beginner - Just starting out"
  else if level ≤ 4 then "Elementary - Basic understanding"
  else if level ≤ 6 then "Intermediate - Can work independently"
  else if level ≤ 8 then "Advanced - Strong proficiency"
  else "Expert - Mastery level"

/-- `get_priority_description` (learning_roadmap.py lines 17-24). -/
def get_priority_description (priority_score : ℚ) : String :=
  if priority_score > 15 then "🔴 Critical - Focus on this first"
  else if priority_score > 8 then "🟡 Important - High priority"
  else "🟢 Moderate - Can be learned later"

/-- One element of a week's `focus_areas` list. -/
structure FocusArea where
  skill : String
  current_level : ℚ
  current_description : String
  target_level : ℚ
  target_description : String
  levels_to_improve : ℚ
  difficulty : String
  priority : String
  priority_score : ℚ
deriving Repr, DecidableEq, Inhabited

/-- One `week_plan` dict of the roadmap. -/
structure WeekPlan where
  week : Nat
  focus_areas : List FocusArea
  daily_targets : List String
deriving Repr, DecidableEq, Inhabited

/-- The `legend` dict of the roadmap. -/
structure Legend where
  levels : String
  priority : String
  timeline : String
deriving Repr, DecidableEq, Inhabited

/-- The dict returned by `generate_learning_roadmap`.  The two branches
of the source return different key sets; absent keys are `none`. -/
structure Roadmap where
  status : String
  message : Option String
  total_skills_to_develop : Option Nat
  estimated_weeks : Option Nat
  legend : Option Legend
  weeks : List WeekPlan
deriving Repr, DecidableEq, Inhabited

/-- The `focus_areas.append({...})` body (learning_roadmap.py lines
64-77). -/
def focusArea (skill : String) (gap_info : GapRecord) : FocusArea :=
  let difficulty :=
    if gap_info.current ≤ 3 then "Beginner"
    else if gap_info.current ≤ 6 then "Intermediate"
    else "Advanced"
  { skill := skill
    current_level := round1 gap_info.current
    current_description := get_level_description gap_info.current
    target_level := round1 gap_info.required
    target_description := get_level_description gap_info.required
    levels_to_improve := round1 gap_info.gap
    difficulty := difficulty
    priority := get_priority_description gap_info.priority_score
    priority_score := round1 gap_info.priority_score }

/-- The daily-target strings of one week (learning_roadmap.py lines
80-89): six study days referencing only the first skill of the bucket,
plus a fixed review day. -/
def dailyTargets (week_skills : List (String × GapRecord)) : List String :=
  ((List.range 6).map (fun i =>
    let day := i + 1
    let t := "Day " ++ toString day ++ ": "
    match week_skills with
    | [] => t
    | (skill_name, _) :: _ => t ++ "Study " ++ skill_name ++ " (2-3 hours)"))
  ++ ["Day 7: Review & Practice"]

/-- One iteration of `for week_num in range(1, weeks + 1)`
(learning_roadmap.py lines 59-91): the bucket is
`skills_list[start_idx : start_idx + skills_per_week]` for every week but
the last, which takes everything from its start index on. -/
def weekPlan (weeks_total : Nat) (skills_list : List (String × GapRecord))
    (skills_per_week : Nat) (week_num : Nat) : WeekPlan :=
  let start_idx := (week_num - 1) * skills_per_week
  let week_skills :=
    if week_num < weeks_total then (skills_list.drop start_idx).take skills_per_week
    else skills_list.drop start_idx
  { week := week_num
    focus_areas := week_skills.map (fun p => focusArea p.1 p.2)
    daily_targets := dailyTargets week_skills }

/-- `generate_learning_roadmap` (learning_roadmap.py lines 27-99). -/
def generate_learning_roadmap (user_scores : SMap) (role_requirements : SMap)
    (weeks : Nat) : Roadmap :=
  let gaps := calculate_skill_gaps user_scores role_requirements
  let skills_to_learn := gaps.filter (fun p => decide (0 < p.2.gap))
  if skills_to_learn.isEmpty then
    { status := "🎉 Congratulations!"
      message := some "You have all required skills for this role!"
      total_skills_to_develop := none
      estimated_weeks := none
      legend := none
      weeks := [] }
  else
    let skills_list := skills_to_learn
    let skills_per_week := max 1 (skills_list.length / weeks)
    { status := "📚 Personalized Learning Roadmap"
      message := none
      total_skills_to_develop := some skills_to_learn.length
      estimated_weeks := some weeks
      legend := some
        { levels := "Skill levels range from 1 (Beginner) to 10 (Expert)"
          priority := "Priority indicates how critical this skill is for your target role"
          timeline := "This " ++ toString weeks ++
            "-week plan is personalized based on your current skill gaps" }
      weeks := (List.range weeks).map
        (fun i => weekPlan weeks skills_list skills_per_week (i + 1)) }

/-- Sortedness by descending priority score. -/
def SortedDesc (l : List (String × GapRecord)) : Prop :=
  l.Pairwise (fun a b => b.2.priority_score ≤ a.2.priority_score)

/-- Spec-side description of the per-skill difficulty sequence: the
first draw uses the starting difficulty and every following draw steps
one tier up, saturating at expert (`next_difficulty · true`). -/
def specRatchetDifficulties (d : Difficulty) : Nat → List Difficulty
  | 0 => []
  | n + 1 => d :: specRatchetDifficulties (next_difficulty d true) n

/-- Does a skill have at least one question at any difficulty?  Skills
failing this predicate contribute nothing to a generated quiz. -/
def hasAnyQuestion (bank : Bank) (skill : String) : Bool :=
  (bank.lookup skill).isSome &&
    DIFFICULTY_ORDER.any (fun d => !(getPool bank skill d).isEmpty)

-- ═════════════════════════════════════════════
--  Theorems
-- ═════════════════════════════════════════════

theorem pyMax_eq (a b : ℚ) : pyMax a b = max a b := by
  unfold pyMax
  rcases le_total b a with h | h
  · simp [h, max_eq_left h]
  · rcases eq_or_lt_of_le h with rfl | hlt
    · simp
    · simp [not_le.mpr hlt, max_eq_right h]

theorem pyMin_eq (a b : ℚ) : pyMin a b = min a b := by
  unfold pyMin
  rcases le_total a b with h | h
  · simp [h, min_eq_left h]
  · rcases eq_or_lt_of_le h with rfl | hlt
    · simp
    · simp [not_le.mpr hlt, min_eq_right h]

example : calculate_readiness_score [("SQL", 0)] [("SQL", 8)] = 0 := by decide

example :
    ((calculate_skill_gaps [("SQL", 0)] [("SQL", 8)]).lookup "SQL").map GapRecord.gap
      = some 8 := by decide

example :
    ((calculate_skill_gaps [("SQL", 0)] [("SQL", 8)]).lookup "SQL").map
        GapRecord.priority_score = some (32/5) := by decide

example :
    (generate_learning_roadmap [("SQL", 8)] [("SQL", 8)] 12).weeks = [] := by decide

example :
    ((generate_learning_roadmap [("SQL", 0)] [("SQL", 8)] 4).weeks.map
      (fun w => w.focus_areas.map (fun f => f.skill))) = [["SQL"], [], [], []] := by
  decide

theorem ratFloor_eq_floor (q : ℚ) : (Rat.floor q : ℤ) = ⌊q⌋ := by
  rw [Rat.floor_def, Rat.floor_def']

theorem round1_eq_floor (q : ℚ) : round1 q = ((⌊q * 10 + 1/2⌋ : ℤ) : ℚ) / 10 := by
  rw [round1, ratFloor_eq_floor]

theorem round1_mono {a b : ℚ} (h : a ≤ b) : round1 a ≤ round1 b := by
  rw [round1_eq_floor, round1_eq_floor]
  have h10 : a * 10 + 1/2 ≤ b * 10 + 1/2 := by linarith
  have := Int.floor_le_floor h10
  have hc : ((⌊a * 10 + 1/2⌋ : ℤ) : ℚ) ≤ ((⌊b * 10 + 1/2⌋ : ℤ) : ℚ) := by
    exact_mod_cast this
  linarith

theorem round1_tenth (k : ℤ) : round1 ((k : ℚ) / 10) = (k : ℚ) / 10 := by
  rw [round1_eq_floor]
  have : (k : ℚ) / 10 * 10 + 1/2 = (k : ℚ) + 1/2 := by ring
  rw [this]
  have hfl : ⌊(k : ℚ) + 1/2⌋ = k + ⌊(1 : ℚ)/2⌋ := Int.floor_int_add k _
  have h12 : ⌊(1 : ℚ)/2⌋ = 0 := by norm_num [Int.floor_eq_zero_iff]
  rw [hfl, h12, add_zero]

theorem round1_exists_tenth (q : ℚ) : ∃ k : ℤ, round1 q = (k : ℚ) / 10 :=
  ⟨⌊q * 10 + 1/2⌋, round1_eq_floor q⟩

theorem round1_idem (q : ℚ) : round1 (round1 q) = round1 q := by
  obtain ⟨k, hk⟩ := round1_exists_tenth q
  rw [hk, round1_tenth]

theorem round1_zero : round1 0 = 0 := by decide

theorem round1_nonneg {q : ℚ} (h : 0 ≤ q) : 0 ≤ round1 q := by
  have := round1_mono h
  rwa [round1_zero] at this

theorem round1_hundred : round1 100 = 100 := by decide

theorem pyMin_le_left (a b : ℚ) : pyMin a b ≤ a := by
  rw [pyMin_eq]; exact min_le_left a b

theorem pyMin_le_right (a b : ℚ) : pyMin a b ≤ b := by
  rw [pyMin_eq]; exact min_le_right a b

theorem le_pyMin {a b c : ℚ} (h1 : c ≤ a) (h2 : c ≤ b) : c ≤ pyMin a b := by
  rw [pyMin_eq]; exact le_min h1 h2

theorem pyMax_nonneg_right (a : ℚ) : 0 ≤ pyMax a 0 := by
  rw [pyMax_eq]; exact le_max_right a 0

theorem pyMax_mono_left {a b : ℚ} (c : ℚ) (h : a ≤ b) : pyMax a c ≤ pyMax b c := by
  rw [pyMax_eq, pyMax_eq]; exact max_le_max h le_rfl

theorem lookup_eq_some_iff_mem {β : Type} {l : List (String × β)}
    (hnd : (l.map Prod.fst).Nodup) (k : String) (v : β) :
    l.lookup k = some v ↔ (k, v) ∈ l := by
  induction l with
  | nil => simp [List.lookup]
  | cons p rest ih =>
    obtain ⟨k', v'⟩ := p
    simp only [List.map_cons, List.nodup_cons] at hnd
    by_cases hk : k = k'
    · subst hk
      simp only [List.lookup, beq_self_eq_true, List.mem_cons]
      constructor
      · intro h
        have hv : v' = v := Option.some.inj h
        exact Or.inl (by rw [hv])
      · rintro (h | h)
        · simp [Prod.ext_iff] at h
          simp [h]
        · exact absurd (List.mem_map_of_mem Prod.fst h) (by simpa using hnd.1)
    · have hbeq : (k == k') = false := beq_eq_false_iff_ne.mpr hk
      simp only [List.lookup, hbeq]
      rw [ih hnd.2]
      simp only [List.mem_cons]
      constructor
      · exact Or.inr
      · rintro (h | h)
        · exact absurd (congrArg Prod.fst h) (by simpa using hk)
        · exact h

theorem lookup_eq_of_perm {β : Type} {l l' : List (String × β)}
    (hp : l.Perm l') (hnd : (l.map Prod.fst).Nodup) (k : String) :
    l.lookup k = l'.lookup k := by
  have hnd' : (l'.map Prod.fst).Nodup := ((hp.map Prod.fst).nodup_iff).mp hnd
  cases h : l'.lookup k with
  | none =>
    cases h2 : l.lookup k with
    | none => rfl
    | some v =>
      have := (lookup_eq_some_iff_mem hnd k v).mp h2
      have hmem := hp.mem_iff.mp this
      have := (lookup_eq_some_iff_mem hnd' k v).mpr hmem
      rw [this] at h
      exact absurd h (by simp)
  | some v =>
    have := (lookup_eq_some_iff_mem hnd' k v).mp h
    have hmem := hp.mem_iff.mpr this
    exact (lookup_eq_some_iff_mem hnd k v).mpr hmem

theorem insertByPriorityDesc_perm (x : String × GapRecord)
    (l : List (String × GapRecord)) :
    (insertByPriorityDesc x l).Perm (x :: l) := by
  induction l with
  | nil => simp [insertByPriorityDesc]
  | cons y t ih =>
    rw [insertByPriorityDesc]
    by_cases h : x.2.priority_score ≤ y.2.priority_score
    · simp only [h, if_pos]
      exact (ih.cons y).trans (List.Perm.swap x y t)
    · simp [h]

theorem insertByPriorityDesc_sorted {x : String × GapRecord}
    {l : List (String × GapRecord)} (hs : SortedDesc l) :
    SortedDesc (insertByPriorityDesc x l) := by
  induction l with
  | nil => simp [insertByPriorityDesc, SortedDesc]
  | cons y t ih =>
    rw [SortedDesc, List.pairwise_cons] at hs
    rw [insertByPriorityDesc]
    by_cases h : x.2.priority_score ≤ y.2.priority_score
    · simp only [h, if_pos]
      rw [SortedDesc, List.pairwise_cons]
      constructor
      · intro z hz
        have := (insertByPriorityDesc_perm x t).mem_iff.mp hz
        rcases List.mem_cons.mp this with rfl | hmem
        · exact h
        · exact hs.1 z hmem
      · exact ih hs.2
    · simp only [h, if_neg, not_false_iff]
      rw [SortedDesc, List.pairwise_cons]
      constructor
      · intro z hz
        rcases List.mem_cons.mp hz with rfl | hmem
        · exact le_of_lt (lt_of_not_le h)
        · exact le_trans (hs.1 z hmem) (le_of_lt (lt_of_not_le h))
      · rw [List.pairwise_cons]
        exact ⟨hs.1, hs.2⟩

theorem filter_eq_nil_of_lt {q : ℚ} {y : String × GapRecord}
    {t : List (String × GapRecord)} (hs : SortedDesc (y :: t))
    (hlt : y.2.priority_score < q) :
    (y :: t).filter (fun p => decide (p.2.priority_score = q)) = [] := by
  rw [List.filter_eq_nil_iff]
  intro p hp
  rcases List.mem_cons.mp hp with rfl | hmem
  · simpa using ne_of_lt hlt
  · rw [SortedDesc, List.pairwise_cons] at hs
    have := hs.1 p hmem
    simpa using ne_of_lt (lt_of_le_of_lt this hlt)

theorem insertByPriorityDesc_filter (q : ℚ) (x : String × GapRecord)
    {l : List (String × GapRecord)} (hs : SortedDesc l) :
    (insertByPriorityDesc x l).filter (fun p => decide (p.2.priority_score = q))
      = if x.2.priority_score = q then
          l.filter (fun p => decide (p.2.priority_score = q)) ++ [x]
        else l.filter (fun p => decide (p.2.priority_score = q)) := by
  induction l with
  | nil =>
    by_cases hx : x.2.priority_score = q <;>
      simp [insertByPriorityDesc, List.filter, hx]
  | cons y t ih =>
    rw [SortedDesc, List.pairwise_cons] at hs
    rw [insertByPriorityDesc]
    by_cases h : x.2.priority_score ≤ y.2.priority_score
    · simp only [h, if_pos]
      have iht := ih hs.2
      by_cases hy : y.2.priority_score = q <;>
        by_cases hx : x.2.priority_score = q <;>
          simp [List.filter_cons, hy, hx, iht]
    · simp only [h, if_neg, not_false_iff]
      by_cases hx : x.2.priority_score = q
      · have hyq : y.2.priority_score < q := hx ▸ lt_of_not_le h
        have hnil := filter_eq_nil_of_lt (t := t) (y := y)
          (by rw [SortedDesc, List.pairwise_cons]; exact hs) hyq
        simp [List.filter_cons, hx, hnil]
      · simp [List.filter_cons, hx]

theorem sortByPriorityDesc_perm_aux (l acc : List (String × GapRecord)) :
    (l.foldl (fun acc x => insertByPriorityDesc x acc) acc).Perm (acc ++ l) := by
  induction l generalizing acc with
  | nil => simp
  | cons x t ih =>
    rw [List.foldl_cons]
    refine (ih (insertByPriorityDesc x acc)).trans ?_
    have h1 : (insertByPriorityDesc x acc ++ t).Perm ((x :: acc) ++ t) :=
      (insertByPriorityDesc_perm x acc).append_right t
    refine h1.trans ?_
    simpa using List.perm_middle.symm

theorem sortByPriorityDesc_perm (l : List (String × GapRecord)) :
    (sortByPriorityDesc l).Perm l := by
  simpa using sortByPriorityDesc_perm_aux l []

theorem sortByPriorityDesc_sorted_aux (l : List (String × GapRecord))
    (acc : List (String × GapRecord)) (hs : SortedDesc acc) :
    SortedDesc (l.foldl (fun acc x => insertByPriorityDesc x acc) acc) := by
  induction l generalizing acc with
  | nil => simpa
  | cons x t ih =>
    rw [List.foldl_cons]
    exact ih _ (insertByPriorityDesc_sorted hs)

theorem sortByPriorityDesc_sorted (l : List (String × GapRecord)) :
    SortedDesc (sortByPriorityDesc l) :=
  sortByPriorityDesc_sorted_aux l [] (by simp [SortedDesc])

theorem sortByPriorityDesc_stable_aux (q : ℚ) (l : List (String × GapRecord)) :
    ∀ acc : List (String × GapRecord), SortedDesc acc →
    (l.foldl (fun acc x => insertByPriorityDesc x acc) acc).filter
        (fun p => decide (p.2.priority_score = q))
      = acc.filter (fun p => decide (p.2.priority_score = q))
        ++ l.filter (fun p => decide (p.2.priority_score = q)) := by
  induction l with
  | nil => intro acc _; simp
  | cons x t ih =>
    intro acc hs
    rw [List.foldl_cons]
    rw [ih _ (insertByPriorityDesc_sorted hs)]
    rw [insertByPriorityDesc_filter q x hs]
    by_cases hx : x.2.priority_score = q <;>
      simp [List.filter_cons, hx]

/-- Stability of the modelled sort: for each priority value, the
entries carrying it appear in the sorted output in their original
relative order. -/
theorem sortByPriorityDesc_stable (q : ℚ) (l : List (String × GapRecord)) :
    (sortByPriorityDesc l).filter (fun p => decide (p.2.priority_score = q))
      = l.filter (fun p => decide (p.2.priority_score = q)) := by
  have := sortByPriorityDesc_stable_aux q l [] (by simp [SortedDesc])
  simpa using this

theorem gapList_lookup (u reqs : SMap) (k : String) :
    (gapList u reqs).lookup k = (reqs.lookup k).map (fun req => gapRecord u k req) := by
  induction reqs with
  | nil => simp [gapList]
  | cons p rest ih =>
    obtain ⟨k', req⟩ := p
    by_cases hk : k = k'
    · subst hk
      simp [gapList, List.lookup]
    · have hbeq : (k == k') = false := beq_eq_false_iff_ne.mpr hk
      simpa [gapList, List.lookup, hbeq] using ih

theorem gapList_keys (u reqs : SMap) :
    (gapList u reqs).map Prod.fst = reqs.map Prod.fst := by
  induction reqs with
  | nil => rfl
  | cons p rest ih => simp [gapList]

theorem calculate_skill_gaps_lookup (u reqs : SMap) (k : String)
    (hnd : (reqs.map Prod.fst).Nodup) :
    (calculate_skill_gaps u reqs).lookup k
      = (reqs.lookup k).map (fun req => gapRecord u k req) := by
  have hnd' : ((gapList u reqs).map Prod.fst).Nodup := by
    rwa [gapList_keys]
  have hperm : (gapList u reqs).Perm (calculate_skill_gaps u reqs) :=
    (sortByPriorityDesc_perm _).symm
  rw [← lookup_eq_of_perm hperm hnd' k, gapList_lookup]

theorem dictGet_nonneg {m : SMap} (h : ∀ p ∈ m, 0 ≤ p.2) (k : String) :
    0 ≤ dictGet m k 0 := by
  induction m with
  | nil => simp [dictGet, List.lookup]
  | cons p rest ih =>
    obtain ⟨k', v⟩ := p
    by_cases hk : (k == k')
    · simpa [dictGet, List.lookup, hk] using h (k', v) (by simp)
    · have : ∀ p ∈ rest, 0 ≤ p.2 := fun p hp => h p (List.mem_cons_of_mem _ hp)
      simpa [dictGet, List.lookup, hk] using ih this

/-- C1, counterexample to the claim as stated: with requirement
`{A: 10}` and user level `{A: 9.996}` (both in the documented 0-10
range) `calculate_readiness_score` returns `100` although the skill's
current level is strictly below its requirement, and the returned value
differs from the claimed unrounded formula
`100 * Σ min(current, required) / Σ required = 99.96`. -/
theorem C1_counterexample :
    calculate_readiness_score [("A", 9996/1000)] [("A", 10)] = 100 ∧
    dictGet [("A", 9996/1000)] "A" 0 < 10 ∧
    calculate_readiness_score [("A", 9996/1000)] [("A", 10)]
      ≠ 100 * pyMin (dictGet [("A", 9996/1000)] "A" 0) 10 / 10 := by
  decide

/-- C1 (amended): `calculate_readiness_score` returns
`min(100, round(100 * Σ min(current, required) / Σ required, 1))`, `0`
when `Σ required = 0`; for nonnegative levels and requirements the
result lies in `[0, 100]`; and it equals `100` whenever `Σ required > 0`
and every skill's current level is ≥ its required level (the converse is
false by `C1_counterexample`: rounding to one decimal can produce 100
when the exact ratio is just below 100). -/
theorem C1_readiness_amended (user_scores role_requirements : SMap)
    (huser : ∀ p ∈ user_scores, 0 ≤ p.2)
    (hreq : ∀ p ∈ role_requirements, 0 ≤ p.2) :
    (0 ≤ calculate_readiness_score user_scores role_requirements ∧
      calculate_readiness_score user_scores role_requirements ≤ 100) ∧
    ((role_requirements.map Prod.snd).sum = 0 →
      calculate_readiness_score user_scores role_requirements = 0) ∧
    ((0 < (role_requirements.map Prod.snd).sum ∧
        ∀ p ∈ role_requirements, p.2 ≤ dictGet user_scores p.1 0) →
      calculate_readiness_score user_scores role_requirements = 100) := by
  by_cases hnil : role_requirements = []
  · subst hnil
    have h0 : calculate_readiness_score user_scores [] = 0 := by
      simp [calculate_readiness_score]
    refine ⟨⟨by rw [h0], by rw [h0]; norm_num⟩, fun _ => h0, ?_⟩
    rintro ⟨hpos, -⟩
    simp at hpos
  · have hCnonneg :
        0 ≤ (role_requirements.map
          (fun p => pyMin (dictGet user_scores p.1 0) p.2)).sum := by
      apply List.sum_nonneg
      intro x hx
      obtain ⟨p, hp, rfl⟩ := List.mem_map.mp hx
      rw [pyMin_eq]
      exact le_min (dictGet_nonneg huser p.1) (hreq p hp)
    refine ⟨⟨?_, ?_⟩, ?_, ?_⟩
    · simp only [calculate_readiness_score, if_neg hnil]
      apply le_pyMin (by norm_num)
      apply round1_nonneg
      by_cases hT : 0 < (role_requirements.map Prod.snd).sum
      · rw [if_pos hT]
        positivity
      · rw [if_neg hT]
    · simp only [calculate_readiness_score, if_neg hnil]
      exact pyMin_le_left _ _
    · intro hT0
      simp only [calculate_readiness_score, if_neg hnil]
      rw [if_neg (by rw [hT0]; exact lt_irrefl 0), round1_zero]
      rw [pyMin_eq]
      exact min_eq_right (by norm_num)
    · rintro ⟨hTpos, hcover⟩
      have hmapeq : role_requirements.map
            (fun p => pyMin (dictGet user_scores p.1 0) p.2)
          = role_requirements.map Prod.snd := by
        apply List.map_congr_left
        intro p hp
        rw [pyMin_eq]
        exact min_eq_right (hcover p hp)
      simp only [calculate_readiness_score, if_neg hnil, hmapeq, if_pos hTpos]
      rw [div_self (ne_of_gt hTpos), one_mul, round1_hundred, pyMin_eq, min_self]

/-- Witness for `C1_readiness_amended` at a concrete input. -/
theorem C1_readiness_amended_witness :
    (0 ≤ calculate_readiness_score [("SQL", 10)] [("SQL", 8)] ∧
      calculate_readiness_score [("SQL", 10)] [("SQL", 8)] ≤ 100) ∧
    ((([("SQL", 8)] : SMap).map Prod.snd).sum = 0 →
      calculate_readiness_score [("SQL", 10)] [("SQL", 8)] = 0) ∧
    ((0 < (([("SQL", 8)] : SMap).map Prod.snd).sum ∧
        ∀ p ∈ ([("SQL", 8)] : SMap), p.2 ≤ dictGet [("SQL", 10)] p.1 0) →
      calculate_readiness_score [("SQL", 10)] [("SQL", 8)] = 100) :=
  C1_readiness_amended [("SQL", 10)] [("SQL", 8)] (by decide) (by decide)

/-- C3, counterexample to the claim as stated: with requirement
`{A: 0.1}` and no user level, the record has `gap = 0.1 > 0` and
`required > 0` but `priority_score = round(0.1 * (0.1/10), 1) = 0`, so
`priority_score = gap * required / 10` fails and so does the
left-to-right direction of `priority_score = 0 ⟺ gap = 0`. -/
theorem C3_counterexample :
    (((calculate_skill_gaps [] [("A", 1/10)]).lookup "A").map
        GapRecord.priority_score = some 0) ∧
    (((calculate_skill_gaps [] [("A", 1/10)]).lookup "A").map GapRecord.gap
        = some (1/10)) ∧
    (0 : ℚ) < 1/10 ∧
    (0 : ℚ) ≠ (1/10) * (1/10) / 10 := by
  decide

/-- C3 (amended): every record produced by `calculate_skill_gaps`
satisfies `current = round(user level, 1)`,
`gap = round(max(required - current, 0), 1) ≥ 0`,
`priority_score = round(gap * required/10, 1) ≥ 0` when `required > 0`
(else `0`); `gap = 0` implies `priority_score = 0`; and when
`required = 0` (with a nonnegative user level) both `gap` and
`priority_score` are `0`.  The converse direction of the claimed
equivalence `priority_score = 0 ⟺ gap = 0` fails by
`C3_counterexample` because of the final rounding. -/
theorem C3_gap_record_amended (user_scores reqs : SMap) (skill : String)
    (req : ℚ) (r : GapRecord)
    (hnd : (reqs.map Prod.fst).Nodup)
    (hreq : reqs.lookup skill = some req)
    (hr : (calculate_skill_gaps user_scores reqs).lookup skill = some r) :
    r.current = round1 (dictGet user_scores skill 0) ∧
    r.gap = round1 (pyMax (req - r.current) 0) ∧
    0 ≤ r.gap ∧
    r.priority_score
      = round1 (if req > 0 then r.gap * (req / 10) else 0) ∧
    0 ≤ r.priority_score ∧
    (r.gap = 0 → r.priority_score = 0) ∧
    (req = 0 → 0 ≤ dictGet user_scores skill 0 →
      r.gap = 0 ∧ r.priority_score = 0) := by
  rw [calculate_skill_gaps_lookup user_scores reqs skill hnd, hreq] at hr
  have hrec : r = gapRecord user_scores skill req := by
    simpa using hr.symm
  subst hrec
  have hcur : (gapRecord user_scores skill req).current
      = round1 (dictGet user_scores skill 0) := rfl
  have hgap : (gapRecord user_scores skill req).gap
      = round1 (pyMax (req - round1 (dictGet user_scores skill 0)) 0) := rfl
  have hps : (gapRecord user_scores skill req).priority_score
      = round1 (if req > 0 then
          (gapRecord user_scores skill req).gap * (req / 10) else 0) := rfl
  have h3 : 0 ≤ (gapRecord user_scores skill req).gap := by
    rw [hgap]
    exact round1_nonneg (pyMax_nonneg_right _)
  refine ⟨hcur, by rw [hcur]; exact hgap, h3, hps, ?_, ?_, ?_⟩
  · rw [hps]
    apply round1_nonneg
    by_cases h : req > 0
    · rw [if_pos h]
      exact mul_nonneg h3 (div_nonneg (le_of_lt h) (by norm_num))
    · rw [if_neg h]
  · intro hg
    rw [hps, hg]
    by_cases h : req > 0 <;> simp [h, round1_zero]
  · intro hreq0 hu0
    subst hreq0
    have hmax : pyMax (0 - round1 (dictGet user_scores skill 0)) 0 = 0 := by
      rw [pyMax_eq, max_eq_right]
      have := round1_nonneg hu0
      linarith
    constructor
    · rw [hgap, hmax, round1_zero]
    · rw [hps, if_neg (lt_irrefl 0), round1_zero]

/-- Witness for `C3_gap_record_amended` at a concrete input. -/
theorem C3_gap_record_amended_witness :
    (gapRecord [("SQL", 3)] "SQL" 8).current = round1 (dictGet [("SQL", 3)] "SQL" 0) ∧
    (gapRecord [("SQL", 3)] "SQL" 8).gap
      = round1 (pyMax (8 - (gapRecord [("SQL", 3)] "SQL" 8).current) 0) ∧
    0 ≤ (gapRecord [("SQL", 3)] "SQL" 8).gap ∧
    (gapRecord [("SQL", 3)] "SQL" 8).priority_score
      = round1 (if (8:ℚ) > 0 then (gapRecord [("SQL", 3)] "SQL" 8).gap * (8 / 10) else 0) ∧
    0 ≤ (gapRecord [("SQL", 3)] "SQL" 8).priority_score ∧
    ((gapRecord [("SQL", 3)] "SQL" 8).gap = 0 →
      (gapRecord [("SQL", 3)] "SQL" 8).priority_score = 0) ∧
    ((8:ℚ) = 0 → 0 ≤ dictGet [("SQL", 3)] "SQL" 0 →
      (gapRecord [("SQL", 3)] "SQL" 8).gap = 0 ∧
      (gapRecord [("SQL", 3)] "SQL" 8).priority_score = 0) := by
  have h := C3_gap_record_amended [("SQL", 3)] [("SQL", 8)] "SQL" 8
    (gapRecord [("SQL", 3)] "SQL" 8) (by decide) (by decide) (by decide)
  exact h

/-- C7: the mapping returned by `calculate_skill_gaps` is ordered by
`priority_score` descending, and entries with equal `priority_score`
keep the original requirement-map iteration order (the order of
`gapList`, which lists one record per requirement entry in map order). -/
theorem C7_gaps_sorted_stable (user_scores reqs : SMap) :
    ((calculate_skill_gaps user_scores reqs).Pairwise
      (fun a b => b.2.priority_score ≤ a.2.priority_score)) ∧
    ∀ q : ℚ,
      (calculate_skill_gaps user_scores reqs).filter
          (fun p => decide (p.2.priority_score = q))
        = (gapList user_scores reqs).filter
            (fun p => decide (p.2.priority_score = q)) :=
  ⟨sortByPriorityDesc_sorted _, fun q => sortByPriorityDesc_stable q _⟩

theorem dictGet_dictSet_self (m : SMap) (k : String) (v : ℚ) (d : ℚ) :
    dictGet (dictSet m k v) k d = v := by
  induction m with
  | nil => simp [dictSet, dictGet, List.lookup]
  | cons p rest ih =>
    obtain ⟨k', v'⟩ := p
    by_cases hk : k' == k
    · have : k = k' := (beq_iff_eq.mp hk).symm
      subst this
      simp [dictSet, dictGet, List.lookup, hk]
    · have hk2 : (k == k') = false := by
        rw [beq_eq_false_iff_ne]
        intro h
        subst h
        simp at hk
      simpa [dictSet, dictGet, List.lookup, hk, hk2] using ih

theorem dictGet_dictSet_ne (m : SMap) {k k' : String} (h : k' ≠ k)
    (v : ℚ) (d : ℚ) :
    dictGet (dictSet m k v) k' d = dictGet m k' d := by
  induction m with
  | nil =>
    have hk2 : (k' == k) = false := beq_eq_false_iff_ne.mpr h
    simp [dictSet, dictGet, List.lookup, hk2]
  | cons p rest ih =>
    obtain ⟨k'', v''⟩ := p
    by_cases hk : k'' == k
    · have : k'' = k := beq_iff_eq.mp hk
      subst this
      have hk2 : (k' == k'') = false := beq_eq_false_iff_ne.mpr h
      simp [dictSet, dictGet, List.lookup, hk, hk2]
    · by_cases hk3 : k' == k''
      · simp [dictSet, dictGet, List.lookup, hk, hk3]
      · simpa [dictSet, dictGet, List.lookup, hk, hk3] using ih

/-- C2, counterexample to the claim as stated: the user map contains a
previous level for `"Python"` (with value `0`), and the quiz score is
`8`; the claim prescribes `round((0 + 8)/2, 1) = 4.0`, but the code's
Python-truthiness test `if prev` treats the stored `0` like a missing
level and stores `8`. -/
theorem C2_counterexample :
    (List.lookup "Python" ([("Python", 0)] : SMap)).isSome = true ∧
    applySkillScore [("Python", 0)] "Python" 8 = [("Python", 8)] ∧
    round1 ((0 + 8) / 2) = 4 ∧
    dictGet (applySkillScore [("Python", 0)] "Python" 8) "Python" 0 ≠ 4 := by
  decide

theorem applyQuizResults_dictGet_notin (u : SMap)
    (results : List (String × SkillScore)) (k : String)
    (h : ∀ q ∈ results, q.1 ≠ k) :
    dictGet (applyQuizResults u results) k 0 = dictGet u k 0 := by
  induction results generalizing u with
  | nil => rfl
  | cons q rest ih =>
    have hq : q.1 ≠ k := h q (by simp)
    have hrest : ∀ q2 ∈ rest, q2.1 ≠ k :=
      fun q2 hq2 => h q2 (List.mem_cons_of_mem _ hq2)
    have step : applyQuizResults u (q :: rest)
        = applyQuizResults (applySkillScore u q.1 q.2.score_0_10) rest := rfl
    rw [step, ih _ hrest, applySkillScore]
    exact dictGet_dictSet_ne _ hq.symm _ _

/-- C2 (amended): after scoring a quiz, for every skill in the result
the caller stores `round((previous_level + score_0_10)/2, 1)` whenever a
previous **nonzero** level existed for that skill, and stores
`score_0_10` unchanged when the previous level was absent **or zero**
(Python truthiness of `if prev`). -/
theorem C2_update_amended (user_scores : SMap)
    (results : List (String × SkillScore))
    (hnd : (results.map Prod.fst).Nodup) :
    ∀ p ∈ results,
      dictGet (applyQuizResults user_scores results) p.1 0
        = (if dictGet user_scores p.1 0 ≠ 0 then
            round1 ((dictGet user_scores p.1 0 + p.2.score_0_10) / 2)
          else p.2.score_0_10) := by
  induction results generalizing user_scores with
  | nil => intro p hp; simp at hp
  | cons r rest ih =>
    intro p hp
    simp only [List.map_cons, List.nodup_cons] at hnd
    have happly : applyQuizResults user_scores (r :: rest)
        = applyQuizResults (applySkillScore user_scores r.1 r.2.score_0_10) rest := rfl
    rcases List.mem_cons.mp hp with rfl | hmem
    · have hnotin : ∀ q ∈ rest, q.1 ≠ p.1 := by
        intro q hq heq
        exact hnd.1 (heq ▸ List.mem_map_of_mem Prod.fst hq)
      rw [happly, applyQuizResults_dictGet_notin _ rest p.1 hnotin]
      rw [applySkillScore]
      by_cases hprev : dictGet user_scores p.1 0 ≠ 0 <;>
        simp [hprev, dictGet_dictSet_self]
    · have hne : p.1 ≠ r.1 := by
        intro heq
        exact hnd.1 (heq ▸ List.mem_map_of_mem Prod.fst hmem)
      rw [happly]
      rw [ih _ hnd.2 p hmem]
      have : dictGet (applySkillScore user_scores r.1 r.2.score_0_10) p.1 0
          = dictGet user_scores p.1 0 := by
        rw [applySkillScore]
        exact dictGet_dictSet_ne _ hne _ _
      rw [this]

/-- Witness for `C2_update_amended` at a concrete input. -/
theorem C2_update_amended_witness :
    dictGet (applyQuizResults [("Python", 5)]
        [("Python", ⟨2, 2, .intermediate, 13/2⟩)]) "Python" 0
      = (if dictGet [("Python", 5)] "Python" 0 ≠ 0 then
          round1 ((dictGet [("Python", 5)] "Python" 0 + (13/2 : ℚ)) / 2)
        else (13/2 : ℚ)) := by
  have h := C2_update_amended [("Python", 5)]
    [("Python", ⟨2, 2, .intermediate, 13/2⟩)] (by decide)
  exact h ("Python", ⟨2, 2, .intermediate, 13/2⟩) (by simp)

/-- C8: for a skill with a previous user level, if the quiz score is ≥
that level, then blending it in with
`new_level = round((previous_level + score_0_10)/2, 1)` and recomputing
`calculate_skill_gaps` does not increase that skill's gap. -/
theorem C8_roundtrip_gap_monotone (user_scores reqs : SMap) (skill : String)
    (prev score req : ℚ) (r r' : GapRecord)
    (hnd : (reqs.map Prod.fst).Nodup)
    (hprev : user_scores.lookup skill = some prev)
    (hscore : prev ≤ score)
    (hreq : reqs.lookup skill = some req)
    (hr : (calculate_skill_gaps user_scores reqs).lookup skill = some r)
    (hr' : (calculate_skill_gaps
        (dictSet user_scores skill (round1 ((prev + score) / 2))) reqs).lookup
          skill = some r') :
    r'.gap ≤ r.gap := by
  have hpv : dictGet user_scores skill 0 = prev := by
    simp [dictGet, hprev]
  rw [calculate_skill_gaps_lookup _ _ _ hnd, hreq] at hr hr'
  have h1 : r = gapRecord user_scores skill req := by simpa using hr.symm
  have h2 : r' = gapRecord
      (dictSet user_scores skill (round1 ((prev + score) / 2))) skill req := by
    simpa using hr'.symm
  subst h1 h2
  have e1 : (gapRecord user_scores skill req).gap
      = round1 (pyMax (req - round1 prev) 0) := by
    have : (gapRecord user_scores skill req).gap
        = round1 (pyMax (req - round1 (dictGet user_scores skill 0)) 0) := rfl
    rwa [hpv] at this
  have hget : dictGet
      (dictSet user_scores skill (round1 ((prev + score) / 2))) skill 0
      = round1 ((prev + score) / 2) := dictGet_dictSet_self _ _ _ _
  have e2 : (gapRecord
      (dictSet user_scores skill (round1 ((prev + score) / 2))) skill req).gap
      = round1 (pyMax (req - round1 ((prev + score) / 2)) 0) := by
    have : (gapRecord
        (dictSet user_scores skill (round1 ((prev + score) / 2))) skill req).gap
        = round1 (pyMax (req - round1 (dictGet
            (dictSet user_scores skill (round1 ((prev + score) / 2))) skill 0)) 0) := rfl
    rwa [hget, round1_idem] at this
  rw [e1, e2]
  apply round1_mono
  apply pyMax_mono_left
  have hmono : round1 prev ≤ round1 ((prev + score) / 2) :=
    round1_mono (by linarith)
  linarith

/-- Witness for `C8_roundtrip_gap_monotone` at a concrete input. -/
theorem C8_roundtrip_gap_monotone_witness :
    (gapRecord (dictSet [("SQL", 4)] "SQL" (round1 (((4 : ℚ) + 6) / 2)))
        "SQL" 8).gap
      ≤ (gapRecord [("SQL", 4)] "SQL" 8).gap :=
  C8_roundtrip_gap_monotone [("SQL", 4)] [("SQL", 8)] "SQL" 4 6 8
    (gapRecord [("SQL", 4)] "SQL" 8)
    (gapRecord (dictSet [("SQL", 4)] "SQL" (round1 (((4 : ℚ) + 6) / 2))) "SQL" 8)
    (by decide) (by decide) (by decide) (by decide) (by decide) (by decide)

theorem join_range_buckets {α : Type} (spw : Nat) :
    ∀ (w : Nat) (l : List α), 1 ≤ w →
    ((List.range w).map (fun i =>
      if i + 1 < w then (l.drop (i * spw)).take spw
      else l.drop (i * spw))).flatten = l := by
  intro w
  induction w with
  | zero => intro l h; exact absurd h (by norm_num)
  | succ n ih =>
    intro l _
    by_cases hn : 1 ≤ n
    · rw [List.range_succ_eq_map]
      rw [List.map_cons, List.flatten_cons]
      have h0 : (if 0 + 1 < n + 1 then (l.drop (0 * spw)).take spw
          else l.drop (0 * spw)) = l.take spw := by
        rw [if_pos (by omega)]
        simp
      rw [h0]
      have hshift : (List.range n).map
            ((fun i => if i + 1 < n + 1 then (l.drop (i * spw)).take spw
              else l.drop (i * spw)) ∘ Nat.succ)
          = (List.range n).map (fun i =>
              if i + 1 < n then ((l.drop spw).drop (i * spw)).take spw
              else (l.drop spw).drop (i * spw)) := by
        apply List.map_congr_left
        intro i _
        have hdd : (l.drop spw).drop (i * spw) = l.drop (Nat.succ i * spw) := by
          rw [List.drop_drop]
          congr 1
          rw [Nat.succ_mul, Nat.add_comm]
        have hiff : (Nat.succ i + 1 < n + 1) = (i + 1 < n) := by
          simp only [eq_iff_iff]
          omega
        simp only [Function.comp_apply, hdd, hiff]
      rw [List.map_map, hshift, ih (l.drop spw) hn]
      exact List.take_append_drop spw l
    · have hn0 : n = 0 := by omega
      subst hn0
      have : List.range 1 = [0] := rfl
      simp [this]

theorem weekPlan_skills (wt : Nat) (sl : List (String × GapRecord))
    (spw wn : Nat) :
    (weekPlan wt sl spw wn).focus_areas.map FocusArea.skill
      = (if wn < wt then (sl.drop ((wn - 1) * spw)).take spw
         else sl.drop ((wn - 1) * spw)).map Prod.fst := by
  have hcongr : ∀ ws : List (String × GapRecord),
      (ws.map (fun p => focusArea p.1 p.2)).map FocusArea.skill
        = ws.map Prod.fst := by
    intro ws
    rw [List.map_map]
    exact List.map_congr_left (fun p _ => rfl)
  by_cases h : wn < wt
  · simp only [weekPlan, if_pos h]
    exact hcongr _
  · simp only [weekPlan, if_neg h]
    exact hcongr _

/-- C9: `generate_learning_roadmap` keeps only skills with `gap > 0`;
with no such skill it returns the congratulation status with an empty
week list; otherwise it produces exactly `weeks` week plans whose
buckets are the contiguous slices of size
`skills_per_week = max(1, total // weeks)` of the priority-sorted
gap-skill list (the last week taking everything from its start index),
and concatenating the buckets reproduces the gap-skill list exactly, so
every gap skill appears in exactly one week. -/
theorem C9_roadmap_partition (u reqs : SMap) (weeks : Nat)
    (gapsk : List (String × GapRecord)) (spw : Nat)
    (hweeks : 1 ≤ weeks)
    (hg : gapsk = (calculate_skill_gaps u reqs).filter
      (fun p => decide (0 < p.2.gap)))
    (hs : spw = max 1 (gapsk.length / weeks)) :
    (gapsk = [] →
      (generate_learning_roadmap u reqs weeks).status = "🎉 Congratulations!" ∧
      (generate_learning_roadmap u reqs weeks).weeks = []) ∧
    (gapsk ≠ [] →
      (generate_learning_roadmap u reqs weeks).status
          = "📚 Personalized Learning Roadmap" ∧
      (generate_learning_roadmap u reqs weeks).weeks.length = weeks ∧
      (generate_learning_roadmap u reqs weeks).weeks.map
          (fun w => w.focus_areas.map FocusArea.skill)
        = (List.range weeks).map (fun i =>
            (if i + 1 < weeks then (gapsk.drop (i * spw)).take spw
             else gapsk.drop (i * spw)).map Prod.fst) ∧
      ((generate_learning_roadmap u reqs weeks).weeks.map
          (fun w => w.focus_areas.map FocusArea.skill)).flatten
        = gapsk.map Prod.fst) := by
  subst hs
  subst hg
  constructor
  · intro h0
    constructor <;> simp [generate_learning_roadmap, h0]
  · intro hne
    have hie : ¬(((calculate_skill_gaps u reqs).filter
        (fun p => decide (0 < p.2.gap))).isEmpty = true) := by
      simpa [List.isEmpty_eq_true] using hne
    have hwks : (generate_learning_roadmap u reqs weeks).weeks
        = (List.range weeks).map (fun i =>
            weekPlan weeks
              ((calculate_skill_gaps u reqs).filter
                (fun p => decide (0 < p.2.gap)))
              (max 1 (((calculate_skill_gaps u reqs).filter
                (fun p => decide (0 < p.2.gap))).length / weeks))
              (i + 1)) := by
      simp only [generate_learning_roadmap, if_neg hie]
    have hst : (generate_learning_roadmap u reqs weeks).status
        = "📚 Personalized Learning Roadmap" := by
      simp only [generate_learning_roadmap, if_neg hie]
    have hmap : (generate_learning_roadmap u reqs weeks).weeks.map
        (fun w => w.focus_areas.map FocusArea.skill)
        = (List.range weeks).map (fun i =>
            (if i + 1 < weeks then
              (((calculate_skill_gaps u reqs).filter
                  (fun p => decide (0 < p.2.gap))).drop
                (i * max 1 (((calculate_skill_gaps u reqs).filter
                  (fun p => decide (0 < p.2.gap))).length / weeks))).take
                (max 1 (((calculate_skill_gaps u reqs).filter
                  (fun p => decide (0 < p.2.gap))).length / weeks))
             else ((calculate_skill_gaps u reqs).filter
                  (fun p => decide (0 < p.2.gap))).drop
                (i * max 1 (((calculate_skill_gaps u reqs).filter
                  (fun p => decide (0 < p.2.gap))).length / weeks))).map
              Prod.fst) := by
      rw [hwks, List.map_map]
      apply List.map_congr_left
      intro i _
      have h := weekPlan_skills weeks
        ((calculate_skill_gaps u reqs).filter (fun p => decide (0 < p.2.gap)))
        (max 1 (((calculate_skill_gaps u reqs).filter
          (fun p => decide (0 < p.2.gap))).length / weeks)) (i + 1)
      simpa using h
    refine ⟨hst, ?_, hmap, ?_⟩
    · rw [hwks, List.length_map, List.length_range]
    · rw [hmap]
      have hcomm : ∀ (l : List (String × GapRecord)) (spw : Nat),
          (List.range weeks).map (fun i =>
            (if i + 1 < weeks then (l.drop (i * spw)).take spw
             else l.drop (i * spw)).map Prod.fst)
          = ((List.range weeks).map (fun i =>
              if i + 1 < weeks then (l.drop (i * spw)).take spw
              else l.drop (i * spw))).map (List.map Prod.fst) := by
        intro l spw
        rw [List.map_map]
        rfl
      rw [hcomm, ← List.map_flatten, join_range_buckets _ weeks _ hweeks]

/-- Witness for `C9_roadmap_partition` at a concrete input. -/
theorem C9_roadmap_partition_witness :
    ((generate_learning_roadmap [("SQL", 0)] [("SQL", 8), ("Py", 5)] 3).weeks.map
        (fun w => w.focus_areas.map FocusArea.skill)).flatten
      = ((calculate_skill_gaps [("SQL", 0)] [("SQL", 8), ("Py", 5)]).filter
          (fun p => decide (0 < p.2.gap))).map Prod.fst :=
  ((C9_roadmap_partition [("SQL", 0)] [("SQL", 8), ("Py", 5)] 3 _ _
      (by decide) rfl rfl).2 (by decide)).2.2.2

theorem drawForSkill_ids (bank : Bank) (rng : Nat → Nat) (skill : String) :
    ∀ (n : Nat) (d : Difficulty) (qid : Nat),
      (drawForSkill bank rng skill n d qid).1.map QuizItem.id
        = List.range' qid (drawForSkill bank rng skill n d qid).1.length ∧
      (drawForSkill bank rng skill n d qid).2
        = qid + (drawForSkill bank rng skill n d qid).1.length := by
  intro n
  induction n with
  | zero => intro d qid; exact ⟨rfl, rfl⟩
  | succ n ih =>
    intro d qid
    rw [drawForSkill]
    set resolved := (if (getPool bank skill d).isEmpty then
        match DIFFICULTY_ORDER.find? (fun x => !(getPool bank skill x).isEmpty) with
        | some d2 => (getPool bank skill d2, d2)
        | none => (getPool bank skill d, d)
      else (getPool bank skill d, d)) with hres
    by_cases hp : resolved.1.isEmpty
    · simp only [hp, if_pos]
      exact ih resolved.2 qid
    · simp only [hp, if_neg, Bool.not_eq_true]
      obtain ⟨ih1, ih2⟩ := ih (next_difficulty resolved.2 true) (qid + 1)
      constructor
      · simp only [List.map_cons, List.length_cons, ih1]
        rw [List.range'_succ]
      · simp only [List.length_cons, ih2]
        omega

theorem genSkills_ids (bank : Bank) (rng : Nat → Nat) (lvls : SMap) (npq : Nat) :
    ∀ (skills : List String) (qid : Nat),
      (genSkills bank rng lvls npq skills qid).1.map QuizItem.id
        = List.range' qid (genSkills bank rng lvls npq skills qid).1.length ∧
      (genSkills bank rng lvls npq skills qid).2
        = qid + (genSkills bank rng lvls npq skills qid).1.length := by
  intro skills
  induction skills with
  | nil => intro qid; exact ⟨rfl, rfl⟩
  | cons skill rest ih =>
    intro qid
    rw [genSkills]
    by_cases hb : (bank.lookup skill).isNone
    · simp only [hb, if_pos]
      exact ih qid
    · simp only [hb, if_neg, Bool.not_eq_true]
      obtain ⟨hd1, hd2⟩ := drawForSkill_ids bank rng skill npq
        (difficulty_for_level (dictGet lvls skill 5)) qid
      obtain ⟨hm1, hm2⟩ := ih (drawForSkill bank rng skill npq
        (difficulty_for_level (dictGet lvls skill 5)) qid).2
      rw [hd2] at hm1 hm2
      constructor
      · simp only [List.map_append, List.length_append, hd1, hd2, hm1]
        rw [List.range'_append_1]
        congr 1
        omega
      · simp only [List.length_append, hd2, hm2]
        omega

/-- C10: the list returned by `generate_adaptive_quiz` carries ids that
are exactly `0, 1, …, n-1` in emission order, and each item's
`display_order` equals its position as well, for every input (including
every random stream). -/
theorem C10_ids_contiguous (role_skills : List String) (user_levels : SMap)
    (questions_per_skill : Nat) (rng : Nat → Nat) :
    (generate_adaptive_quiz role_skills user_levels questions_per_skill rng).map
        QuizItem.id
      = List.range (generate_adaptive_quiz role_skills user_levels
          questions_per_skill rng).length ∧
    (generate_adaptive_quiz role_skills user_levels questions_per_skill rng).map
        QuizItem.display_order
      = List.range (generate_adaptive_quiz role_skills user_levels
          questions_per_skill rng).length := by
  have hlen : ∀ (l : List QuizItem),
      (l.enum.map (fun p => { p.2 with display_order := p.1 })).length
        = l.length := by
    intro l
    rw [List.length_map, List.enum_length]
  constructor
  · have hid : ∀ (l : List QuizItem),
        (l.enum.map (fun p => { p.2 with display_order := p.1 })).map QuizItem.id
          = l.map QuizItem.id := by
      intro l
      rw [List.map_map]
      have : (QuizItem.id ∘ fun p : Nat × QuizItem =>
          { p.2 with display_order := p.1 }) = (QuizItem.id ∘ Prod.snd) := rfl
      rw [this, ← List.map_map, List.enum_map_snd]
    rw [generate_adaptive_quiz, generateAdaptiveQuizWith, hid, hlen]
    obtain ⟨h1, -⟩ := genSkills_ids QUESTION_BANK rng user_levels
      questions_per_skill role_skills 0
    rw [h1, List.range_eq_range']
  · rw [generate_adaptive_quiz, generateAdaptiveQuizWith, hlen]
    rw [List.map_map]
    have : (QuizItem.display_order ∘ fun p : Nat × QuizItem =>
        { p.2 with display_order := p.1 }) = Prod.fst := rfl
    rw [this, List.enum_map_fst]

theorem lookup_map_snd {β γ : Type} (l : List (String × β)) (f : β → γ)
    (k : String) :
    (l.map (fun p => (p.1, f p.2))).lookup k = (l.lookup k).map f := by
  induction l with
  | nil => simp [List.lookup]
  | cons p rest ih =>
    by_cases hk : k == p.1 <;> simp [List.lookup, hk, ih]

theorem updateAssoc_lookup_self (l : List (String × SkillTally)) (k : String)
    (f : SkillTally → SkillTally) :
    (updateAssoc l k f).lookup k = (l.lookup k).map f := by
  induction l with
  | nil => simp [updateAssoc, List.lookup]
  | cons p rest ih =>
    obtain ⟨k', v⟩ := p
    by_cases hk : k' == k
    · have : k = k' := (beq_iff_eq.mp hk).symm
      subst this
      simp [updateAssoc, List.lookup, hk]
    · have hk2 : (k == k') = false := by
        rw [beq_eq_false_iff_ne]
        intro h
        subst h
        simp at hk
      simp [updateAssoc, List.lookup, hk, hk2, ih]

theorem updateAssoc_lookup_ne (l : List (String × SkillTally)) {k k' : String}
    (h : k' ≠ k) (f : SkillTally → SkillTally) :
    (updateAssoc l k f).lookup k' = l.lookup k' := by
  induction l with
  | nil => simp [updateAssoc]
  | cons p rest ih =>
    obtain ⟨k'', v⟩ := p
    by_cases hk : k'' == k
    · have : k'' = k := beq_iff_eq.mp hk
      subst this
      have hk2 : (k' == k'') = false := beq_eq_false_iff_ne.mpr h
      simp [updateAssoc, List.lookup, hk, hk2]
    · by_cases hk3 : k' == k''
      · simp [updateAssoc, List.lookup, hk, hk3]
      · simp [updateAssoc, List.lookup, hk, hk3, ih]

theorem lookup_append_right {β : Type} (l : List (String × β)) (k : String)
    (v : β) (h : l.lookup k = none) :
    (l ++ [(k, v)]).lookup k = some v := by
  induction l with
  | nil => simp [List.lookup]
  | cons p rest ih =>
    by_cases hk : k == p.1
    · simp [List.lookup, hk] at h
    · have hkf : (k == p.1) = false := by simpa using hk
      rw [List.cons_append]
      simp only [List.lookup, hkf] at h ⊢
      exact ih h

theorem lookup_append_ne {β : Type} (l : List (String × β)) {k k' : String}
    (h : k' ≠ k) (v : β) :
    (l ++ [(k, v)]).lookup k' = l.lookup k' := by
  induction l with
  | nil =>
    have hk2 : (k' == k) = false := beq_eq_false_iff_ne.mpr h
    simp [List.lookup, hk2]
  | cons p rest ih =>
    by_cases hk : k' == p.1
    · simp [List.lookup, hk]
    · simp only [List.cons_append, List.lookup, hk]
      exact ih

theorem tallies_lookup_some (answers : List (Nat × Nat)) :
    ∀ (quiz : List QuizItem) (acc : List (String × SkillTally))
      (skill : String) (r : SkillTally),
      acc.lookup skill = some r →
      (quiz.foldl (tallyStep answers) acc).lookup skill
        = some ((quiz.filter (fun q => q.skill == skill)).foldl
            (tallyItem answers) r) := by
  intro quiz
  induction quiz with
  | nil => intro acc skill r h; simpa using h
  | cons q t ih =>
    intro acc skill r h
    rw [List.foldl_cons]
    by_cases hsk : q.skill == skill
    · have hqs : q.skill = skill := beq_iff_eq.mp hsk
      have hisome : (acc.lookup q.skill).isSome := by rw [hqs, h]; rfl
      have hstep : tallyStep answers acc q
          = updateAssoc acc q.skill (fun x => tallyItem answers x q) := by
        rw [tallyStep, if_pos hisome]
      have hlook : (tallyStep answers acc q).lookup skill
          = some (tallyItem answers r q) := by
        rw [hstep, hqs, updateAssoc_lookup_self, h]
        rfl
      rw [ih _ _ _ hlook]
      simp [List.filter_cons, hsk]
    · have hne : skill ≠ q.skill := by
        intro hh
        exact hsk (by rw [hh]; simp)
      have hlook : (tallyStep answers acc q).lookup skill = some r := by
        rw [tallyStep]
        by_cases hisome : (acc.lookup q.skill).isSome
        · rw [if_pos hisome, updateAssoc_lookup_ne _ hne, h]
        · rw [if_neg hisome, lookup_append_ne _ hne, h]
      rw [ih _ _ _ hlook]
      simp [List.filter_cons, hsk]

theorem tallies_lookup_none (answers : List (Nat × Nat)) :
    ∀ (quiz : List QuizItem) (acc : List (String × SkillTally))
      (skill : String),
      acc.lookup skill = none →
      (quiz.foldl (tallyStep answers) acc).lookup skill
        = (if (quiz.filter (fun q => q.skill == skill)) = [] then none
           else some ((quiz.filter (fun q => q.skill == skill)).foldl
              (tallyItem answers) ⟨0, 0, .beginner⟩)) := by
  intro quiz
  induction quiz with
  | nil => intro acc skill h; simpa using h
  | cons q t ih =>
    intro acc skill h
    rw [List.foldl_cons]
    by_cases hsk : q.skill == skill
    · have hqs : q.skill = skill := beq_iff_eq.mp hsk
      have hisome : ¬(acc.lookup q.skill).isSome := by
        rw [hqs, h]
        simp
      have hstep : tallyStep answers acc q
          = acc ++ [(q.skill, tallyItem answers ⟨0, 0, .beginner⟩ q)] := by
        rw [tallyStep, if_neg hisome]
      have hlook : (tallyStep answers acc q).lookup skill
          = some (tallyItem answers ⟨0, 0, .beginner⟩ q) := by
        rw [hstep, hqs]
        exact lookup_append_right _ _ _ h
      rw [tallies_lookup_some answers t _ _ _ hlook]
      simp [List.filter_cons, hsk]
    · have hne : skill ≠ q.skill := by
        intro hh
        exact hsk (by rw [hh]; simp)
      have hlook : (tallyStep answers acc q).lookup skill = none := by
        rw [tallyStep]
        by_cases hisome : (acc.lookup q.skill).isSome
        · rw [if_pos hisome, updateAssoc_lookup_ne _ hne, h]
        · rw [if_neg hisome, lookup_append_ne _ hne, h]
      rw [ih _ _ hlook]
      simp [List.filter_cons, hsk]

theorem round1_two : round1 2 = 2 := by decide

theorem tallyItem_total (answers : List (Nat × Nat)) (r : SkillTally)
    (q : QuizItem) : (tallyItem answers r q).total = r.total + 1 := by
  by_cases hhit : answers.lookup q.id = some q.correct_index
  · by_cases hle : difficultyIndex r.max_difficulty ≤ difficultyIndex q.difficulty <;>
      simp [tallyItem, hhit, hle]
  · simp [tallyItem, hhit]

theorem tallyItem_correct (answers : List (Nat × Nat)) (r : SkillTally)
    (q : QuizItem) :
    (tallyItem answers r q).correct
      = r.correct + (if answers.lookup q.id = some q.correct_index then 1 else 0) := by
  by_cases hhit : answers.lookup q.id = some q.correct_index
  · by_cases hle : difficultyIndex r.max_difficulty ≤ difficultyIndex q.difficulty <;>
      simp [tallyItem, hhit, hle]
  · simp [tallyItem, hhit]

theorem tallyItem_max_idx (answers : List (Nat × Nat)) (r : SkillTally)
    (q : QuizItem) :
    difficultyIndex (tallyItem answers r q).max_difficulty
      = (if answers.lookup q.id = some q.correct_index then
          max (difficultyIndex r.max_difficulty) (difficultyIndex q.difficulty)
        else difficultyIndex r.max_difficulty) := by
  by_cases hhit : answers.lookup q.id = some q.correct_index
  · by_cases hle : difficultyIndex r.max_difficulty ≤ difficultyIndex q.difficulty
    · simp [tallyItem, hhit, hle, Nat.max_eq_right hle]
    · simp [tallyItem, hhit, hle, Nat.max_eq_left (Nat.le_of_not_le hle)]
  · simp [tallyItem, hhit]

theorem tallyItem_foldl (answers : List (Nat × Nat)) :
    ∀ (l : List QuizItem) (r : SkillTally),
      ((l.foldl (tallyItem answers) r).total = r.total + l.length) ∧
      ((l.foldl (tallyItem answers) r).correct
        = r.correct + (l.filter (fun q =>
            decide (answers.lookup q.id = some q.correct_index))).length) ∧
      (difficultyIndex (l.foldl (tallyItem answers) r).max_difficulty
        = (l.filter (fun q =>
            decide (answers.lookup q.id = some q.correct_index))).foldl
              (fun m q => max m (difficultyIndex q.difficulty))
              (difficultyIndex r.max_difficulty)) := by
  intro l
  induction l with
  | nil => intro r; exact ⟨rfl, by simp, rfl⟩
  | cons q t ih =>
    intro r
    rw [List.foldl_cons]
    obtain ⟨iht, ihc, ihm⟩ := ih (tallyItem answers r q)
    by_cases hhit : answers.lookup q.id = some q.correct_index
    · refine ⟨?_, ?_, ?_⟩
      · rw [iht, tallyItem_total]
        simp [List.length_cons]
        omega
      · rw [ihc, tallyItem_correct]
        simp [List.filter_cons, hhit]
        omega
      · rw [ihm, tallyItem_max_idx]
        simp [List.filter_cons, hhit]
    · refine ⟨?_, ?_, ?_⟩
      · rw [iht, tallyItem_total]
        simp [List.length_cons]
        omega
      · rw [ihc, tallyItem_correct]
        simp [List.filter_cons, hhit]
      · rw [ihm, tallyItem_max_idx]
        simp [List.filter_cons, hhit]

/-- C4: `score_quiz` groups items by skill; per skill `total` counts
every item, `correct` counts exactly the items whose answer entry equals
`correct_index` (unanswered items count toward `total` only),
`max_difficulty` starts at beginner and is raised to a correctly
answered item's tier exactly when that tier is ≥ the recorded one (so
its index is the maximum of 0 and the correct items' tier indices), and
`score_0_10 = min(10, round(2 + tier_index * 2.5 + (correct/total) * 2, 1))`;
in particular a present skill with zero answered items scores exactly
2.0. -/
theorem C4_score_quiz_characterization (quiz : List QuizItem)
    (answers : List (Nat × Nat)) (skill : String) (r : SkillScore)
    (hr : (score_quiz quiz answers).lookup skill = some r) :
    1 ≤ r.total ∧
    r.total = (quiz.filter (fun q => q.skill == skill)).length ∧
    r.correct = (quiz.filter (fun q => q.skill == skill &&
        decide (answers.lookup q.id = some q.correct_index))).length ∧
    difficultyIndex r.max_difficulty
      = ((quiz.filter (fun q => q.skill == skill &&
            decide (answers.lookup q.id = some q.correct_index))).map
            (fun q => difficultyIndex q.difficulty)).foldl max 0 ∧
    r.score_0_10 = pyMin 10 (round1 (2
        + (difficultyIndex r.max_difficulty : ℚ) * 2.5
        + ((r.correct : ℚ) / (r.total : ℚ)) * 2)) ∧
    ((∀ q ∈ quiz, q.skill = skill → answers.lookup q.id = none) →
      r.correct = 0 ∧ r.score_0_10 = 2) := by
  simp only [score_quiz] at hr
  rw [lookup_map_snd] at hr
  rw [tallies_lookup_none answers quiz [] skill rfl] at hr
  by_cases hfe : quiz.filter (fun q => q.skill == skill) = []
  · rw [if_pos hfe] at hr
    simp at hr
  · rw [if_neg hfe] at hr
    have hrt : r = scoreOfTally ((quiz.filter (fun q => q.skill == skill)).foldl
        (tallyItem answers) ⟨0, 0, .beginner⟩) := (Option.some.inj hr).symm
    set t := (quiz.filter (fun q => q.skill == skill)).foldl
        (tallyItem answers) ⟨0, 0, .beginner⟩ with htdef
    obtain ⟨ht, hc, hm⟩ := tallyItem_foldl answers
      (quiz.filter (fun q => q.skill == skill)) ⟨0, 0, .beginner⟩
    rw [← htdef] at ht hc hm
    have hrtotal : r.total = t.total := by rw [hrt]; rfl
    have hrcorrect : r.correct = t.correct := by rw [hrt]; rfl
    have hrmax : r.max_difficulty = t.max_difficulty := by rw [hrt]; rfl
    have hlenpos : 0 < (quiz.filter (fun q => q.skill == skill)).length :=
      List.length_pos.mpr hfe
    have htot : t.total = (quiz.filter (fun q => q.skill == skill)).length := by
      rw [ht]
      simp
    have htot0 : t.total ≠ 0 := by omega
    have hfilter2 : (quiz.filter (fun q => q.skill == skill)).filter
          (fun q => decide (answers.lookup q.id = some q.correct_index))
        = quiz.filter (fun q => q.skill == skill &&
            decide (answers.lookup q.id = some q.correct_index)) := by
      rw [List.filter_filter]
      exact List.filter_congr (fun a _ => Bool.and_comm _ _)
    have hcor : t.correct = (quiz.filter (fun q => q.skill == skill &&
        decide (answers.lookup q.id = some q.correct_index))).length := by
      rw [hc, hfilter2]
      simp
    have hmax : difficultyIndex t.max_difficulty
        = ((quiz.filter (fun q => q.skill == skill &&
            decide (answers.lookup q.id = some q.correct_index))).map
            (fun q => difficultyIndex q.difficulty)).foldl max 0 := by
      rw [hm, hfilter2, List.foldl_map]
      rfl
    have hscore : r.score_0_10 = pyMin 10 (round1 (2
        + (difficultyIndex t.max_difficulty : ℚ) * 2.5
        + ((t.correct : ℚ) / (t.total : ℚ)) * 2)) := by
      have hbase : r.score_0_10 = pyMin 10 (round1 (2
          + (difficultyIndex t.max_difficulty : ℚ) * 2.5
          + (if t.total ≠ 0 then (t.correct : ℚ) / (t.total : ℚ) else 0) * 2)) := by
        rw [hrt]
        rfl
      rw [hbase, if_pos htot0]
    refine ⟨?_, ?_, ?_, ?_, ?_, ?_⟩
    · rw [hrtotal, htot]
      omega
    · rw [hrtotal, htot]
    · rw [hrcorrect, hcor]
    · rw [hrmax, hmax]
    · rw [hscore, hrmax, hrcorrect, hrtotal]
    · intro hall
      have hhits : quiz.filter (fun q => q.skill == skill &&
          decide (answers.lookup q.id = some q.correct_index)) = [] := by
        rw [List.filter_eq_nil_iff]
        intro q hq hqp
        simp only [Bool.and_eq_true, decide_eq_true_eq] at hqp
        have := hall q hq (beq_iff_eq.mp hqp.1)
        rw [this] at hqp
        exact absurd hqp.2 (by simp)
      have hc0 : r.correct = 0 := by
        rw [hrcorrect, hcor, hhits]
        rfl
      refine ⟨hc0, ?_⟩
      have hm0 : difficultyIndex t.max_difficulty = 0 := by
        rw [hmax, hhits]
        rfl
      rw [hscore, hm0]
      rw [hrcorrect] at hc0
      rw [hc0]
      norm_num
      rw [round1_two]
      decide

/-- Witness for `C4_score_quiz_characterization` at a concrete quiz:
two Python items, the beginner one answered correctly and the
intermediate one left unanswered. -/
theorem C4_score_quiz_characterization_witness :
    1 ≤ (⟨1, 2, .beginner, 3⟩ : SkillScore).total ∧
    (⟨1, 2, .beginner, 3⟩ : SkillScore).total
      = (([⟨0, "Python", .beginner, "Q0", ["a", "b"], 0, 0⟩,
          ⟨1, "Python", .intermediate, "Q1", ["a", "b"], 1, 1⟩] :
            List QuizItem).filter (fun q => q.skill == "Python")).length ∧
    (⟨1, 2, .beginner, 3⟩ : SkillScore).correct
      = (([⟨0, "Python", .beginner, "Q0", ["a", "b"], 0, 0⟩,
          ⟨1, "Python", .intermediate, "Q1", ["a", "b"], 1, 1⟩] :
            List QuizItem).filter (fun q => q.skill == "Python" &&
              decide (([(0, 0)] : List (Nat × Nat)).lookup q.id
                = some q.correct_index))).length ∧
    difficultyIndex (⟨1, 2, .beginner, 3⟩ : SkillScore).max_difficulty
      = ((([⟨0, "Python", .beginner, "Q0", ["a", "b"], 0, 0⟩,
          ⟨1, "Python", .intermediate, "Q1", ["a", "b"], 1, 1⟩] :
            List QuizItem).filter (fun q => q.skill == "Python" &&
              decide (([(0, 0)] : List (Nat × Nat)).lookup q.id
                = some q.correct_index))).map
            (fun q => difficultyIndex q.difficulty)).foldl max 0 ∧
    (⟨1, 2, .beginner, 3⟩ : SkillScore).score_0_10
      = pyMin 10 (round1 (2
        + (difficultyIndex (⟨1, 2, .beginner, 3⟩ : SkillScore).max_difficulty : ℚ) * 2.5
        + (((⟨1, 2, .beginner, 3⟩ : SkillScore).correct : ℚ)
            / ((⟨1, 2, .beginner, 3⟩ : SkillScore).total : ℚ)) * 2)) ∧
    ((∀ q ∈ ([⟨0, "Python", .beginner, "Q0", ["a", "b"], 0, 0⟩,
          ⟨1, "Python", .intermediate, "Q1", ["a", "b"], 1, 1⟩] :
            List QuizItem), q.skill = "Python" →
        ([(0, 0)] : List (Nat × Nat)).lookup q.id = none) →
      (⟨1, 2, .beginner, 3⟩ : SkillScore).correct = 0 ∧
      (⟨1, 2, .beginner, 3⟩ : SkillScore).score_0_10 = 2) :=
  C4_score_quiz_characterization
    [⟨0, "Python", .beginner, "Q0", ["a", "b"], 0, 0⟩,
     ⟨1, "Python", .intermediate, "Q1", ["a", "b"], 1, 1⟩]
    [(0, 0)] "Python" ⟨1, 2, .beginner, 3⟩ (by decide)

theorem getPool_isEmpty_false {bank : Bank} {skill : String} {d : Difficulty}
    (h : getPool bank skill d ≠ []) :
    (getPool bank skill d).isEmpty = false := by
  cases hpe : (getPool bank skill d).isEmpty
  · rfl
  · exact absurd (List.isEmpty_eq_true.mp hpe) h

theorem drawForSkill_difficulties (bank : Bank) (rng : Nat → Nat)
    (skill : String) (hpools : ∀ d, getPool bank skill d ≠ []) :
    ∀ (n : Nat) (d : Difficulty) (qid : Nat),
      (drawForSkill bank rng skill n d qid).1.map QuizItem.difficulty
        = specRatchetDifficulties d n := by
  intro n
  induction n with
  | zero => intro d qid; rfl
  | succ n ih =>
    intro d qid
    rw [drawForSkill]
    have hpe : (getPool bank skill d).isEmpty = false :=
      getPool_isEmpty_false (hpools d)
    simp only [hpe, Bool.false_eq_true, if_false]
    rw [specRatchetDifficulties, List.map_cons]
    rw [ih]

theorem lookup_isNone_false_of_pools {bank : Bank} {skill : String}
    {d : Difficulty} (hp : getPool bank skill d ≠ []) :
    (bank.lookup skill).isNone = false := by
  cases h : bank.lookup skill with
  | some _ => rfl
  | none =>
    exfalso
    apply hp
    rw [getPool, h]
    rfl

theorem enumSet_map_difficulty (l : List QuizItem) :
    (l.enum.map (fun p => { p.2 with display_order := p.1 })).map
        QuizItem.difficulty
      = l.map QuizItem.difficulty := by
  rw [List.map_map]
  have : (QuizItem.difficulty ∘ fun p : Nat × QuizItem =>
      { p.2 with display_order := p.1 }) = (QuizItem.difficulty ∘ Prod.snd) := rfl
  rw [this, ← List.map_map, List.enum_map_snd]

theorem generateAdaptive_single_difficulties (bank : Bank) (rng : Nat → Nat)
    (skill : String) (lvls : SMap) (n : Nat)
    (hpools : ∀ d, getPool bank skill d ≠ []) :
    (generateAdaptiveQuizWith bank [skill] lvls n rng).map QuizItem.difficulty
      = specRatchetDifficulties
          (difficulty_for_level (dictGet lvls skill 5)) n := by
  rw [generateAdaptiveQuizWith, enumSet_map_difficulty]
  have hb : (bank.lookup skill).isNone = false :=
    lookup_isNone_false_of_pools (hpools .beginner)
  have hgen : (genSkills bank rng lvls n [skill] 0).1
      = (drawForSkill bank rng skill n
          (difficulty_for_level (dictGet lvls skill 5)) 0).1 := by
    rw [genSkills]
    simp only [hb, Bool.false_eq_true, if_false]
    have : (genSkills bank rng lvls n []
        (drawForSkill bank rng skill n
          (difficulty_for_level (dictGet lvls skill 5)) 0).2).1 = [] := rfl
    rw [this, List.append_nil]
  rw [hgen, drawForSkill_difficulties bank rng skill hpools]



theorem drawForSkill_all_empty (bank : Bank) (rng : Nat → Nat) (skill : String)
    (hall : ∀ d, getPool bank skill d = []) :
    ∀ (n : Nat) (d : Difficulty) (qid : Nat),
      drawForSkill bank rng skill n d qid = ([], qid) := by
  intro n
  induction n with
  | zero => intro d qid; rfl
  | succ n ih =>
    intro d qid
    rw [drawForSkill]
    have hfind : DIFFICULTY_ORDER.find?
        (fun x => !(getPool bank skill x).isEmpty) = none := by
      rw [List.find?_eq_none]
      intro d2 _
      rw [hall d2]
      simp
    have hpe : (getPool bank skill d).isEmpty = true := by
      rw [hall d]
      rfl
    simp only [hpe, hfind, if_true]
    exact ih d qid

theorem genSkills_filter (bank : Bank) (rng : Nat → Nat) (lvls : SMap)
    (npq : Nat) :
    ∀ (skills : List String) (qid : Nat),
      genSkills bank rng lvls npq skills qid
        = genSkills bank rng lvls npq
            (skills.filter (fun s => hasAnyQuestion bank s)) qid := by
  intro skills
  induction skills with
  | nil => intro qid; rfl
  | cons skill rest ih =>
    intro qid
    by_cases hq : hasAnyQuestion bank skill
    · have hfc : (skill :: rest).filter (fun s => hasAnyQuestion bank s)
          = skill :: rest.filter (fun s => hasAnyQuestion bank s) := by
        simp [List.filter_cons, hq]
      rw [hfc, genSkills, genSkills]
      have hsome : (bank.lookup skill).isSome := by
        rw [hasAnyQuestion, Bool.and_eq_true] at hq
        exact hq.1
      have hnone : ((bank.lookup skill).isNone = true) = False := by
        simp only [eq_iff_iff, iff_false]
        intro h
        rw [Option.isNone_iff_eq_none] at h
        rw [h] at hsome
        exact absurd hsome (by simp)
      simp only [hnone, if_false]
      rw [ih]
    · have hfc : (skill :: rest).filter (fun s => hasAnyQuestion bank s)
          = rest.filter (fun s => hasAnyQuestion bank s) := by
        simp [List.filter_cons, hq]
      rw [hfc, genSkills]
      rw [hasAnyQuestion, Bool.and_eq_true, not_and_or] at hq
      by_cases hb : (bank.lookup skill).isNone
      · simp only [hb, if_true]
        exact ih qid
      · have hsome : (bank.lookup skill).isSome := by
          cases h : bank.lookup skill with
          | some _ => rfl
          | none => exact absurd (by rw [h]; rfl) hb
        have hany : ¬(DIFFICULTY_ORDER.any
            (fun d => !(getPool bank skill d).isEmpty) = true) := by
          rcases hq with h1 | h2
          · exact absurd hsome h1
          · exact h2
        have hall : ∀ d, getPool bank skill d = [] := by
          intro d
          by_contra hne
          apply hany
          rw [List.any_eq_true]
          refine ⟨d, ?_, ?_⟩
          · cases d <;> simp [DIFFICULTY_ORDER]
          · simp only [Bool.not_eq_true']
            exact getPool_isEmpty_false hne
        simp only [hb, Bool.false_eq_true, if_false]
        rw [drawForSkill_all_empty bank rng skill hall]
        rw [ih qid]
        simp

theorem isEmpty_false_ne_nil {α : Type} {l : List α}
    (h : l.isEmpty = false) : l ≠ [] := by
  intro hnil
  rw [hnil] at h
  simp at h

theorem mem_of_getD {α : Type} [Inhabited α] (l : List α) (i : Nat)
    (h : i < l.length) : l.getD i default ∈ l := by
  rw [List.getD_eq_getElem?_getD, List.getElem?_eq_getElem h]
  exact List.getElem_mem h

theorem drawForSkill_mem (bank : Bank) (rng : Nat → Nat) (skill : String) :
    ∀ (n : Nat) (d : Difficulty) (qid : Nat) (item : QuizItem),
      item ∈ (drawForSkill bank rng skill n d qid).1 →
      item.skill = skill ∧
      getPool bank skill item.difficulty ≠ [] ∧
      ∃ q ∈ getPool bank skill item.difficulty,
        item.question = q.q ∧ item.options = q.opts ∧
        item.correct_index = q.ans := by
  intro n
  induction n with
  | zero => intro d qid item h; simp [drawForSkill] at h
  | succ n ih =>
    intro d qid item h
    rw [drawForSkill] at h
    by_cases hpe : (getPool bank skill d).isEmpty
    · simp only [hpe, if_true] at h
      cases hfind : DIFFICULTY_ORDER.find?
          (fun x => !(getPool bank skill x).isEmpty) with
      | none =>
        rw [hfind] at h
        have hpe2 : (getPool bank skill d).isEmpty = true := hpe
        simp only [hpe2, if_true] at h
        exact ih d qid item h
      | some d2 =>
        rw [hfind] at h
        have hpred := List.find?_some hfind
        have hne2 : (getPool bank skill d2).isEmpty = false := by
          simpa using hpred
        simp only [hne2, Bool.false_eq_true, if_false] at h
        rcases List.mem_cons.mp h with rfl | hmem
        · refine ⟨rfl, isEmpty_false_ne_nil hne2, ?_⟩
          have hlt : rng qid % (getPool bank skill d2).length
              < (getPool bank skill d2).length := by
            apply Nat.mod_lt
            have := List.length_pos.mpr (isEmpty_false_ne_nil hne2)
            omega
          exact ⟨(getPool bank skill d2).getD
              (rng qid % (getPool bank skill d2).length) default,
            mem_of_getD _ _ hlt, rfl, rfl, rfl⟩
        · exact ih (next_difficulty d2 true) (qid + 1) item hmem
    · have hpe2 : (getPool bank skill d).isEmpty = false := by
        simpa using hpe
      simp only [hpe2, Bool.false_eq_true, if_false] at h
      rcases List.mem_cons.mp h with rfl | hmem
      · refine ⟨rfl, isEmpty_false_ne_nil hpe2, ?_⟩
        have hlt : rng qid % (getPool bank skill d).length
            < (getPool bank skill d).length := by
          apply Nat.mod_lt
          have := List.length_pos.mpr (isEmpty_false_ne_nil hpe2)
          omega
        exact ⟨(getPool bank skill d).getD
            (rng qid % (getPool bank skill d).length) default,
          mem_of_getD _ _ hlt, rfl, rfl, rfl⟩
      · exact ih (next_difficulty d true) (qid + 1) item hmem

theorem genSkills_mem (bank : Bank) (rng : Nat → Nat) (lvls : SMap)
    (npq : Nat) :
    ∀ (skills : List String) (qid : Nat) (item : QuizItem),
      item ∈ (genSkills bank rng lvls npq skills qid).1 →
      getPool bank item.skill item.difficulty ≠ [] ∧
      ∃ q ∈ getPool bank item.skill item.difficulty,
        item.question = q.q ∧ item.options = q.opts ∧
        item.correct_index = q.ans := by
  intro skills
  induction skills with
  | nil => intro qid item h; simp [genSkills] at h
  | cons skill rest ih =>
    intro qid item h
    rw [genSkills] at h
    by_cases hb : (bank.lookup skill).isNone
    · simp only [hb, if_true] at h
      exact ih qid item h
    · have hb2 : ((bank.lookup skill).isNone = true) = False := by
        simp only [eq_iff_iff, iff_false]
        exact hb
      simp only [hb2, if_false] at h
      rcases List.mem_append.mp h with hmem | hmem
      · obtain ⟨hsk, hp, hq⟩ := drawForSkill_mem bank rng skill _ _ _ item hmem
        rw [← hsk] at hp hq
        exact ⟨hp, hq⟩
      · exact ih _ item hmem

theorem generateAdaptiveQuizWith_mem (bank : Bank) (skills : List String)
    (lvls : SMap) (n : Nat) (rng : Nat → Nat) (item : QuizItem)
    (h : item ∈ generateAdaptiveQuizWith bank skills lvls n rng) :
    getPool bank item.skill item.difficulty ≠ [] ∧
    ∃ q ∈ getPool bank item.skill item.difficulty,
      item.question = q.q ∧ item.options = q.opts ∧
      item.correct_index = q.ans := by
  rw [generateAdaptiveQuizWith] at h
  obtain ⟨p, hp, hpe⟩ := List.mem_map.mp h
  have hx : p.2 ∈ (genSkills bank rng lvls n skills 0).1 := by
    have hmem := List.mem_map_of_mem Prod.snd hp
    rwa [List.enum_map_snd] at hmem
  have hres := genSkills_mem bank rng lvls n skills 0 p.2 hx
  rw [← hpe]
  exact hres

theorem filter_map_diff_eq (l : List QuizItem) (s : String) :
    (l.filter (fun q => q.skill == s)).map QuizItem.difficulty
      = (l.map (fun q => (q.skill, q.difficulty))).filterMap
          (fun p => if p.1 == s then some p.2 else none) := by
  induction l with
  | nil => rfl
  | cons q t ih =>
    by_cases hq : q.skill == s
    · have he : q.skill = s := beq_iff_eq.mp hq
      simp [List.filter_cons, List.filterMap_cons, hq, he, ih]
    · have hne : q.skill ≠ s := by simpa using hq
      simp [List.filter_cons, List.filterMap_cons, hq, hne, ih]

theorem enumSet_map_pair (l : List QuizItem) :
    ((l.enum.map (fun p => { p.2 with display_order := p.1 })).map
        (fun q => (q.skill, q.difficulty)))
      = l.map (fun q => (q.skill, q.difficulty)) := by
  rw [List.map_map]
  have : ((fun q : QuizItem => (q.skill, q.difficulty)) ∘
      fun p : Nat × QuizItem => { p.2 with display_order := p.1 })
      = ((fun q : QuizItem => (q.skill, q.difficulty)) ∘ Prod.snd) := rfl
  rw [this, ← List.map_map, List.enum_map_snd]

theorem enumSet_filter_map_difficulty (l : List QuizItem) (s : String) :
    ((l.enum.map (fun p => { p.2 with display_order := p.1 })).filter
        (fun q => q.skill == s)).map QuizItem.difficulty
      = (l.filter (fun q => q.skill == s)).map QuizItem.difficulty := by
  rw [filter_map_diff_eq, filter_map_diff_eq, enumSet_map_pair]

theorem genSkills_filter_difficulties (bank : Bank) (rng : Nat → Nat)
    (lvls : SMap) (npq : Nat) (skill : String)
    (hpools : ∀ d, getPool bank skill d ≠ []) :
    ∀ (skills : List String) (qid : Nat),
      ((genSkills bank rng lvls npq skills qid).1.filter
          (fun q => q.skill == skill)).map QuizItem.difficulty
        = (List.replicate (skills.count skill)
            (specRatchetDifficulties
              (difficulty_for_level (dictGet lvls skill 5)) npq)).flatten := by
  intro skills
  induction skills with
  | nil => intro qid; simp [genSkills]
  | cons s rest ih =>
    intro qid
    rw [genSkills]
    by_cases hss : s = skill
    · subst hss
      have hb : (bank.lookup s).isNone = false :=
        lookup_isNone_false_of_pools (hpools .beginner)
      simp only [hb, Bool.false_eq_true, if_false]
      have hcnt : (s :: rest).count s = rest.count s + 1 := by
        simp [List.count_cons]
      rw [hcnt, List.replicate_succ, List.flatten_cons]
      rw [List.filter_append, List.map_append]
      have hself : (drawForSkill bank rng s npq
            (difficulty_for_level (dictGet lvls s 5)) qid).1.filter
            (fun q => q.skill == s)
          = (drawForSkill bank rng s npq
            (difficulty_for_level (dictGet lvls s 5)) qid).1 := by
        rw [List.filter_eq_self]
        intro item hitem
        rw [beq_iff_eq]
        exact (drawForSkill_mem bank rng s npq _ _ item hitem).1
      rw [hself, drawForSkill_difficulties bank rng s hpools, ih]
    · have hcnt : (s :: rest).count skill = rest.count skill := by
        simp only [List.count_cons]
        have hne : ¬(skill == s) = true := by
          intro h
          exact hss (beq_iff_eq.mp h).symm
        simp [hne, hss]
      rw [hcnt]
      by_cases hb : (bank.lookup s).isNone
      · simp only [hb, if_true]
        exact ih qid
      · have hb2 : ((bank.lookup s).isNone = true) = False := by
          simp only [eq_iff_iff, iff_false]
          exact hb
        simp only [hb2, if_false]
        rw [List.filter_append, List.map_append]
        have hnone : (drawForSkill bank rng s npq
              (difficulty_for_level (dictGet lvls s 5)) qid).1.filter
              (fun q => q.skill == skill) = [] := by
          rw [List.filter_eq_nil_iff]
          intro item hitem
          have := (drawForSkill_mem bank rng s npq _ _ item hitem).1
          rw [this]
          simpa using hss
        rw [hnone, List.map_nil, List.nil_append, ih]

theorem generateAdaptive_filter_difficulties (bank : Bank)
    (skills : List String) (lvls : SMap) (n : Nat) (rng : Nat → Nat)
    (skill : String) (hpools : ∀ d, getPool bank skill d ≠ []) :
    ((generateAdaptiveQuizWith bank skills lvls n rng).filter
        (fun q => q.skill == skill)).map QuizItem.difficulty
      = (List.replicate (skills.count skill)
          (specRatchetDifficulties
            (difficulty_for_level (dictGet lvls skill 5)) n)).flatten := by
  rw [generateAdaptiveQuizWith, enumSet_filter_map_difficulty]
  have h := genSkills_filter_difficulties bank rng lvls n skill hpools skills 0
  rw [filter_map_diff_eq] at h ⊢
  exact h

theorem drawForSkill_fallback_head (bank : Bank) (rng : Nat → Nat)
    (skill : String) (n : Nat) (d : Difficulty) (qid : Nat) (d2 : Difficulty)
    (hpe : getPool bank skill d = [])
    (hfind : DIFFICULTY_ORDER.find?
      (fun x => !(getPool bank skill x).isEmpty) = some d2) :
    ((drawForSkill bank rng skill (n + 1) d qid).1.map
        QuizItem.difficulty).head? = some d2 := by
  rw [drawForSkill]
  have hpe2 : (getPool bank skill d).isEmpty = true := by
    rw [hpe]
    rfl
  have hpred := List.find?_some hfind
  have hne2 : (getPool bank skill d2).isEmpty = false := by simpa using hpred
  simp only [hpe2, hfind, if_true, hne2, Bool.false_eq_true, if_false]
  rfl

theorem generateAdaptive_fallback_head (bank : Bank) (skill : String)
    (lvls : SMap) (n : Nat) (rng : Nat → Nat) (d2 : Difficulty)
    (hpe : getPool bank skill (difficulty_for_level (dictGet lvls skill 5)) = [])
    (hfind : DIFFICULTY_ORDER.find?
      (fun x => !(getPool bank skill x).isEmpty) = some d2) :
    ((generateAdaptiveQuizWith bank [skill] lvls (n + 1) rng).map
        QuizItem.difficulty).head? = some d2 := by
  rw [generateAdaptiveQuizWith, enumSet_map_difficulty]
  have hne2 : getPool bank skill d2 ≠ [] :=
    isEmpty_false_ne_nil (by simpa using List.find?_some hfind)
  have hb : (bank.lookup skill).isNone = false :=
    lookup_isNone_false_of_pools hne2
  have hgen : (genSkills bank rng lvls (n + 1) [skill] 0).1
      = (drawForSkill bank rng skill (n + 1)
          (difficulty_for_level (dictGet lvls skill 5)) 0).1 := by
    rw [genSkills]
    simp only [hb, Bool.false_eq_true, if_false]
    have : (genSkills bank rng lvls (n + 1) []
        (drawForSkill bank rng skill (n + 1)
          (difficulty_for_level (dictGet lvls skill 5)) 0).2).1 = [] := rfl
    rw [this, List.append_nil]
  rw [hgen]
  exact drawForSkill_fallback_head bank rng skill n _ 0 d2 hpe hfind

/-- C5: when every difficulty pool for the drawn skill is non-empty,
the items drawn for that skill (within any skill list) carry exactly the
ratcheting difficulty sequence: the first draw uses the fixed threshold
table applied to the user level (default 5 when absent) and each later
draw for the same skill steps one tier up, saturating at expert; the
threshold table is level ≤3 → beginner, ≤5 → intermediate,
≤7 → advanced, else expert; in particular
`generate_adaptive_quiz ["Python"] {Python: 2} 2` yields, for every
random stream, 2 items with difficulties `[beginner, intermediate]`, so
the second tier is ≥ the first. -/
theorem C5_difficulty_selection (bank : Bank) (rng rng2 : Nat → Nat)
    (skill : String) (lvls : SMap) (n : Nat)
    (hpools : ∀ d, getPool bank skill d ≠ []) :
    (∀ skills : List String,
      ((generateAdaptiveQuizWith bank skills lvls n rng).filter
          (fun q => q.skill == skill)).map QuizItem.difficulty
        = (List.replicate (skills.count skill)
            (specRatchetDifficulties
              (difficulty_for_level (dictGet lvls skill 5)) n)).flatten) ∧
    ((generateAdaptiveQuizWith bank [skill] lvls n rng).map QuizItem.difficulty
      = specRatchetDifficulties
          (difficulty_for_level (dictGet lvls skill 5)) n) ∧
    (∀ level : ℚ,
      (level ≤ 3 → difficulty_for_level level = .beginner) ∧
      (3 < level → level ≤ 5 → difficulty_for_level level = .intermediate) ∧
      (5 < level → level ≤ 7 → difficulty_for_level level = .advanced) ∧
      (7 < level → difficulty_for_level level = .expert)) ∧
    ((generate_adaptive_quiz ["Python"] [("Python", 2)] 2 rng2).map
        QuizItem.difficulty = [.beginner, .intermediate] ∧
      (generate_adaptive_quiz ["Python"] [("Python", 2)] 2 rng2).length = 2) := by
  refine ⟨fun skills =>
      generateAdaptive_filter_difficulties bank skills lvls n rng skill hpools,
    generateAdaptive_single_difficulties bank rng skill lvls n hpools,
    ?_, ?_, ?_⟩
  · intro level
    refine ⟨?_, ?_, ?_, ?_⟩
    · intro h1
      rw [difficulty_for_level, if_pos h1]
    · intro h1 h2
      rw [difficulty_for_level, if_neg (not_le.mpr h1), if_pos h2]
    · intro h1 h2
      have h3 : ¬level ≤ 3 := by linarith
      have h5 : ¬level ≤ 5 := not_le.mpr h1
      rw [difficulty_for_level, if_neg h3, if_neg h5, if_pos h2]
    · intro h1
      have h3 : ¬level ≤ 3 := by linarith
      have h5 : ¬level ≤ 5 := by linarith
      have h7 : ¬level ≤ 7 := not_le.mpr h1
      rw [difficulty_for_level, if_neg h3, if_neg h5, if_neg h7]
  · have hp : ∀ d, getPool QUESTION_BANK "Python" d ≠ [] := by
      intro d
      cases d <;> decide
    have h := generateAdaptive_single_difficulties QUESTION_BANK rng2 "Python"
      [("Python", 2)] 2 hp
    rw [generate_adaptive_quiz, h]
    decide
  · have hp : ∀ d, getPool QUESTION_BANK "Python" d ≠ [] := by
      intro d
      cases d <;> decide
    have h := generateAdaptive_single_difficulties QUESTION_BANK rng2 "Python"
      [("Python", 2)] 2 hp
    have hlen : ((generateAdaptiveQuizWith QUESTION_BANK ["Python"]
        [("Python", 2)] 2 rng2).map QuizItem.difficulty).length
        = (specRatchetDifficulties
            (difficulty_for_level (dictGet [("Python", 2)] "Python" 5)) 2).length := by
      rw [h]
    rw [List.length_map] at hlen
    rw [generate_adaptive_quiz, hlen]
    decide

/-- Witness for `C5_difficulty_selection` at a concrete input. -/
theorem C5_difficulty_selection_witness :
    (generate_adaptive_quiz ["Python"] [("Python", 2)] 2 (fun _ => 0)).map
        QuizItem.difficulty = [.beginner, .intermediate] ∧
    (generate_adaptive_quiz ["Python"] [("Python", 2)] 2 (fun _ => 0)).length
        = 2 :=
  (C5_difficulty_selection QUESTION_BANK (fun _ => 0) (fun _ => 0) "Python"
    [("Python", 2)] 2 (by intro d; cases d <;> decide)).2.2.2

/-- C6: `generate_adaptive_quiz` is total and never raises: an empty
skill list yields `[]`; skills with no catalog entry at any difficulty
(or absent from the bank) are skipped silently — the output equals the
output on the filtered skill list; every emitted item was drawn from a
non-empty `(skill, difficulty)` pool, its question belonging to that
pool; and when the starting pool is empty the draw falls back to the
first non-empty pool in the fixed order beginner → intermediate →
advanced → expert, updating the current difficulty to match (the first
emitted item carries that difficulty). -/
theorem C6_totality_and_fallback :
    (∀ (lvls : SMap) (n : Nat) (rng : Nat → Nat),
      generate_adaptive_quiz [] lvls n rng = []) ∧
    (∀ (bank : Bank) (skills : List String) (lvls : SMap) (n : Nat)
        (rng : Nat → Nat),
      generateAdaptiveQuizWith bank skills lvls n rng
        = generateAdaptiveQuizWith bank
            (skills.filter (fun s => hasAnyQuestion bank s)) lvls n rng) ∧
    (∀ (bank : Bank) (skills : List String) (lvls : SMap) (n : Nat)
        (rng : Nat → Nat) (item : QuizItem),
      item ∈ generateAdaptiveQuizWith bank skills lvls n rng →
      getPool bank item.skill item.difficulty ≠ [] ∧
      ∃ q ∈ getPool bank item.skill item.difficulty,
        item.question = q.q ∧ item.options = q.opts ∧
        item.correct_index = q.ans) ∧
    (∀ (bank : Bank) (skill : String) (lvls : SMap) (n : Nat)
        (rng : Nat → Nat) (d2 : Difficulty),
      getPool bank skill (difficulty_for_level (dictGet lvls skill 5)) = [] →
      DIFFICULTY_ORDER.find?
        (fun x => !(getPool bank skill x).isEmpty) = some d2 →
      ((generateAdaptiveQuizWith bank [skill] lvls (n + 1) rng).map
          QuizItem.difficulty).head? = some d2) := by
  refine ⟨fun lvls n rng => rfl, ?_, ?_, ?_⟩
  · intro bank skills lvls n rng
    rw [generateAdaptiveQuizWith, generateAdaptiveQuizWith,
      genSkills_filter bank rng lvls n skills 0]
  · intro bank skills lvls n rng item h
    exact generateAdaptiveQuizWith_mem bank skills lvls n rng item h
  · intro bank skill lvls n rng d2 hpe hfind
    exact generateAdaptive_fallback_head bank skill lvls n rng d2 hpe hfind

/-- Witness for `C6_totality_and_fallback`: a one-skill bank with only
an intermediate pool; the beginner start falls back to intermediate. -/
theorem C6_totality_and_fallback_witness :
    ((generateAdaptiveQuizWith
        [("X", [(Difficulty.intermediate, [⟨"q1", ["a", "b"], 0⟩])])]
        ["X"] [("X", 2)] (1 + 1) (fun _ => 0)).map
        QuizItem.difficulty).head? = some Difficulty.intermediate :=
  C6_totality_and_fallback.2.2.2
    [("X", [(Difficulty.intermediate, [⟨"q1", ["a", "b"], 0⟩])])]
    "X" [("X", 2)] 1 (fun _ => 0) Difficulty.intermediate
    (by decide) (by decide)
